import Mathlib

/-!
Verification of the `vxtelegram` Telegram transport
(`src/vxtelegram/telegram.py`).

The transport bridges Telegram webhook updates and a Vumi message bus.
We embed the Python module shallowly:

* JSON values (`json.loads` results, message payloads) are `JVal`.
* Python `d[k]` raises `KeyError` on a missing key and `TypeError` on a
  non-dict; we model this with `Except PyErr`.  `d.get(k)` returns
  `None` (`JVal.null`) when the key is missing.
* Every externally visible side effect (publishing a message, ack, nack
  or status event, issuing an HTTP POST, touching the dedup store) is
  recorded as an `Event` in a trace, in the order the Python code
  performs it.
* The Redis dedup store is the set of keys currently present, modelled
  as a list of key strings.
* An HTTP response from Telegram is its status code together with the
  result of `response.json()` (a parse error carries the exception
  message) and the raw body text.
-/

namespace VxTelegram

/-- Python exceptions the transport code can raise on dict access and
`dict.update`. -/
inductive PyErr where
  | keyError (k : String)
  | typeError
  | valueError
deriving Repr, DecidableEq

/-- JSON-like values: the results of `json.loads` and the payload
fields of Vumi messages. -/
inductive JVal where
  | null
  | bool (b : Bool)
  | int (n : Int)
  | str (s : String)
  | arr (elems : List JVal)
  | obj (fields : List (String × JVal))
deriving Repr, Inhabited

namespace JVal

/-- Python `d[k]`: `KeyError` on a missing key of a dict, `TypeError`
when subscripting a non-dict with a string key. -/
def getItem : JVal → String → Except PyErr JVal
  | .obj fields, k =>
      match fields.lookup k with
      | some v => .ok v
      | none => .error (.keyError k)
  | _, _ => .error .typeError

/-- Python `d.get(k)`: `None` when the key is missing. -/
def getOpt : JVal → String → JVal
  | .obj fields, k => (fields.lookup k).getD .null
  | _, _ => .null

/-- Python `k in d` for dicts. -/
def hasKey : JVal → String → Bool
  | .obj fields, k => (fields.lookup k).isSome
  | _, _ => false

/-- Python truthiness, used by `res['ok']` in `validate_outbound`. -/
def truthy : JVal → Bool
  | .null => false
  | .bool b => b
  | .int n => n != 0
  | .str s => s != ""
  | .arr elems => !elems.isEmpty
  | .obj fields => !fields.isEmpty

mutual

/-- Python `'%s' % v` string conversion, used to build dedup keys. -/
def pyStr : JVal → String
  | .null => "None"
  | .bool true => "True"
  | .bool false => "False"
  | .int n => toString n
  | .str s => s
  | .arr elems => "[" ++ pyStrJoin elems ++ "]"
  | .obj fields => "\x7b" ++ pyStrJoinFields fields ++ "\x7d"

/-- Comma-joined rendering of a JSON array's elements. -/
def pyStrJoin : List JVal → String
  | [] => ""
  | [v] => pyStr v
  | v :: rest => pyStr v ++ ", " ++ pyStrJoin rest

/-- Comma-joined rendering of a JSON object's fields. -/
def pyStrJoinFields : List (String × JVal) → String
  | [] => ""
  | [(k, v)] => k ++ ": " ++ pyStr v
  | (k, v) :: rest => k ++ ": " ++ pyStr v ++ ", " ++ pyStrJoinFields rest

end

/-- Python `v == 'some string'`: true exactly when `v` is that string. -/
def isStrEq (v : JVal) (s : String) : Bool :=
  match v with
  | .str t => t = s
  | _ => false

end JVal

/-- `d[k] = v` on an insertion-ordered dict (as Python `dict.update`
does per key): replace in place when the key exists, append otherwise. -/
def setKey (fields : List (String × JVal)) (k : String) (v : JVal) :
    List (String × JVal) :=
  match fields.lookup k with
  | some _ => fields.map fun kv => if kv.1 = k then (k, v) else kv
  | none => fields ++ [(k, v)]

/-- The dict key a JSON value yields once the dict reaches
`json.dumps` (every dict this code builds is dumped straight into the
POST body): strings stay themselves; ints, bools and `None` take their
JSON spelling; lists and dicts are unhashable (`TypeError`). -/
def jsonKey : JVal → Except PyErr String
  | .str s => .ok s
  | .int n => .ok (toString n)
  | .bool true => .ok "true"
  | .bool false => .ok "false"
  | .null => .ok "null"
  | .arr _ => .error .typeError
  | .obj _ => .error .typeError

/-- One element of a sequence passed to Python `dict.update`: a
two-element sequence giving a key/value pair.  A two-element array is
the pair itself; a two-character string is the pair of its characters;
arrays and strings of other lengths raise `ValueError`; scalars are not
iterable (`TypeError`).  (A two-key dict element unpacks in undefined
hash order, which no deterministic embedding can reproduce, so it is
treated as an error; nothing proved here depends on it.) -/
def updateElem : JVal → Except PyErr (String × JVal)
  | .arr [k, v] => do
      let ks ← jsonKey k
      pure (ks, v)
  | .arr _ => .error .valueError
  | .str s =>
      match s.toList with
      | [c1, c2] => .ok (String.singleton c1, .str (String.singleton c2))
      | _ => .error .valueError
  | _ => .error .typeError

/-- Python `base.update(v)`: merges when `v` is a dict; also accepts a
sequence of key/value pairs (each element per `updateElem`), including
the empty sequence and the empty string as no-ops; raises `TypeError`
when `v` is `None` or another non-iterable. -/
def dictUpdate (base : List (String × JVal)) (v : JVal) :
    Except PyErr (List (String × JVal)) :=
  match v with
  | .obj fields => .ok (fields.foldl (fun acc kv => setKey acc kv.1 kv.2) base)
  | .arr elems => do
      let pairs ← elems.mapM updateElem
      pure (pairs.foldl (fun acc kv => setKey acc kv.1 kv.2) base)
  | .str s => if s = "" then .ok base else .error .valueError
  | _ => .error .typeError

/-- A Telegram HTTP response as `validate_outbound` sees it:
status code, the outcome of `response.json()` (`.error` carries the
`ValueError` message), and the raw body for error reporting. -/
structure HttpResponse where
  code : Nat
  jsonResult : Except String JVal
  rawContent : String
deriving Repr

/-- The dict returned by `validate_outbound`: either
`{'success': True}` or the failure dict with its `message`, `status`
and `details` entries. -/
inductive VOut where
  | success
  | failure (message status : String) (details : List (String × JVal))
deriving Repr

/-- `TelegramTransport.validate_outbound`.  Checks the redirect code
first, then JSON-parses the body, then requires `code == 200` and a
truthy `ok` field; any other case reads `res['description']` for a
`bad_response` failure.  Dict lookups can raise, hence `Except`. -/
def validate_outbound (response : HttpResponse) : Except PyErr VOut :=
  if response.code = 302 then
    .ok (.failure "request redirected" "request_redirected"
      [("error", .str "Unexpected redirect"), ("res_code", .int 302)])
  else
    match response.jsonResult with
    | .error e =>
        .ok (.failure "unexpected response format" "unexpected_response_format"
          [("error", .str e), ("res_code", .int response.code),
           ("res_body", .str response.rawContent)])
    | .ok res =>
        match (if response.code = 200 then res.getItem "ok"
            else .ok .null : Except PyErr JVal) with
        | .error e => .error e
        | .ok okv =>
            if response.code = 200 ∧ okv.truthy then
              .ok .success
            else
              match res.getItem "description" with
              | .error e => .error e
              | .ok desc =>
                  .ok (.failure "bad response from Telegram" "bad_response"
                    [("error", desc), ("res_code", .int response.code)])

example :
    validate_outbound ⟨200, .ok (.obj [("ok", .bool true)]), ""⟩ =
      .ok .success := rfl

example :
    validate_outbound ⟨302, .ok (.obj [("ok", .bool true)]), ""⟩ =
      .ok (.failure "request redirected" "request_redirected"
        [("error", .str "Unexpected redirect"), ("res_code", .int 302)]) := rfl

example :
    validate_outbound
        ⟨400, .ok (.obj [("ok", .bool false),
          ("description", .str "Bad request")]), ""⟩ =
      .ok (.failure "bad response from Telegram" "bad_response"
        [("error", .str "Bad request"), ("res_code", .int 400)]) := rfl

/-- The arguments of one `publish_message` call: a published
`CanonicalMessage`. -/
structure PubMsg where
  message_id : String
  content : JVal
  to_addr : String
  to_addr_type : String
  from_addr : JVal
  from_addr_type : String
  transport_type : String
  transport_name : String
  helper_metadata : JVal
  transport_metadata : JVal
deriving Repr

/-- One externally visible side effect of the transport, in program
order.  `checkDup`/`markSeen` are the Redis `exists`/`setex` calls on
the dedup key; `httpPost` is a JSON POST of `body` to the Telegram API
method `path`; the rest are bus publications. -/
inductive Event where
  | checkDup (key : String) (dup : Bool)
  | markSeen (key : String)
  | publish (m : PubMsg)
  | ack (userMessageId sentMessageId : String)
  | nack (userMessageId reason : String)
  | status (s component stype message : String)
      (details : List (String × JVal))
  | httpPost (path : String) (body : List (String × JVal))
deriving Repr

/-- The published `CanonicalMessage`s in a trace. -/
def publishesOf (t : List Event) : List PubMsg :=
  t.filterMap fun e => match e with | .publish m => some m | _ => none

/-- The `(user_message_id, sent_message_id)` pairs of the acks in a
trace. -/
def acksOf (t : List Event) : List (String × String) :=
  t.filterMap fun e => match e with | .ack a b => some (a, b) | _ => none

/-- The `(user_message_id, reason)` pairs of the nacks in a trace. -/
def nacksOf (t : List Event) : List (String × String) :=
  t.filterMap fun e => match e with | .nack a b => some (a, b) | _ => none

/-- The status events of a trace whose `status` field is `down`. -/
def downStatusesOf (t : List Event) : List Event :=
  t.filter fun e => match e with
    | .status "down" _ _ _ _ => true
    | _ => false

/-- The HTTP POSTs of a trace, as `(method path, body)` pairs. -/
def postsOf (t : List Event) : List (String × List (String × JVal)) :=
  t.filterMap fun e => match e with
    | .httpPost p b => some (p, b)
    | _ => none

/-- The dedup keys marked as seen (`setex` calls) in a trace. -/
def marksOf (t : List Event) : List String :=
  t.filterMap fun e => match e with | .markSeen k => some k | _ => none

/-- `TelegramTransport.get_update_id_key`. -/
def get_update_id_key (update_id : JVal) : String :=
  "update_id:" ++ update_id.pyStr

/-- `TelegramTransport.handle_inbound_callback_query`.  Reads
`callback_query['from']['username']` unguarded for the log line, then
publishes the canonical message.  Returns the trace of effects and the
exception, if one was raised. -/
def handle_inbound_callback_query (bot_username message_id : String)
    (callback_query : JVal) : List Event × Option PyErr :=
  match (do
    -- log line: callback_query['from']['username']
    let f0 ← callback_query.getItem "from"
    let _logName ← f0.getItem "username"
    -- publish_message argument evaluation
    let f1 ← callback_query.getItem "from"
    let fromId ← f1.getItem "id"
    let queryId ← callback_query.getItem "id"
    let f2 ← callback_query.getItem "from"
    let username ← f2.getItem "username"
    pure (fromId, queryId, username) : Except PyErr (JVal × JVal × JVal)) with
  | .error e => ([], some e)
  | .ok (fromId, queryId, username) =>
      ([.publish {
          message_id := message_id,
          content := callback_query.getOpt "data",
          to_addr := bot_username,
          to_addr_type := "telegram_username",
          from_addr := fromId,
          from_addr_type := "telegram_id",
          transport_type := "telegram",
          transport_name := "telegram_transport",
          helper_metadata := .obj [],
          transport_metadata := .obj [
            ("type", .str "callback_query"),
            ("details", .obj [("callback_query_id", queryId)]),
            ("telegram_username", username)] },
        .status "ok" "telegram_inbound" "good_inbound" "Good inbound request"
          []],
       none)

/-- `TelegramTransport.handle_inbound_inline_query`.  The log line
falls back from `from.get('username')` to `from['id']`; the publish
uses guarded `.get` access for the username. -/
def handle_inbound_inline_query (bot_username message_id : String)
    (inline_query : JVal) : List Event × Option PyErr :=
  match (do
    -- log line: inline_query['from'].get('username') or
    -- inline_query['from']['id']
    let f0 ← inline_query.getItem "from"
    let _logName ← (match f0.getOpt "username" with
      | .null => f0.getItem "id"
      | v => pure v)
    -- publish_message argument evaluation
    let query ← inline_query.getItem "query"
    let f1 ← inline_query.getItem "from"
    let fromId ← f1.getItem "id"
    let queryId ← inline_query.getItem "id"
    pure (query, fromId, queryId) : Except PyErr (JVal × JVal × JVal)) with
  | .error e => ([], some e)
  | .ok (query, fromId, queryId) =>
      let f := inline_query.getOpt "from"
      ([.publish {
          message_id := message_id,
          content := query,
          to_addr := bot_username,
          to_addr_type := "telegram_username",
          from_addr := fromId,
          from_addr_type := "telegram_id",
          transport_type := "telegram",
          transport_name := "telegram_transport",
          helper_metadata := .obj [("telegram", .obj [
            ("type", .str "inline_query"),
            ("details", .obj [("inline_query_id", queryId)]),
            ("telegram_username", f.getOpt "username")])],
          transport_metadata := .obj [
            ("type", .str "inline_query"),
            ("details", .obj [("inline_query_id", queryId)]),
            ("telegram_username", f.getOpt "username")] },
        .status "ok" "telegram_inbound" "good_inbound" "Good inbound request"
          []],
       none)

/-- The record built by `translate_inbound_message`. -/
structure TranslatedMsg where
  telegram_msg_id : JVal
  content : JVal
  from_addr : JVal
  telegram_username : JVal
deriving Repr

/-- `TelegramTransport.translate_inbound_message`: channel posts lack
`from`, so fall back to `chat` for the address and username. -/
def translate_inbound_message (message : JVal) :
    Except PyErr TranslatedMsg := do
  let telegram_msg_id ← message.getItem "message_id"
  let content ← message.getItem "text"
  if message.hasKey "from" then
    let f ← message.getItem "from"
    let from_addr ← f.getItem "id"
    pure { telegram_msg_id := telegram_msg_id, content := content,
           from_addr := from_addr,
           telegram_username := f.getOpt "username" }
  else
    let c ← message.getItem "chat"
    let from_addr ← c.getItem "id"
    pure { telegram_msg_id := telegram_msg_id, content := content,
           from_addr := from_addr,
           telegram_username := c.getOpt "username" }

/-- The outcome of one `handle_raw_inbound_message` run: the effect
trace, the dedup store after the run, the HTTP response code set on
the request (200 unless explicitly set to 400), and the exception if
one escaped. -/
structure InboundResult where
  trace : List Event
  store : List String
  respCode : Nat
  err : Option PyErr
deriving Repr

/-- `TelegramTransport.handle_raw_inbound_message`.  `parsed` is the
outcome of `json.loads` on the request body (`.error` carries the
`ValueError` message), `rawContent` the body text, `store` the set of
dedup keys currently in Redis. -/
def handle_raw_inbound_message (bot_username message_id : String)
    (store : List String) (rawContent : String)
    (parsed : Except String JVal) : InboundResult :=
  match parsed with
  | .error e =>
      { trace := [.status "down" "telegram_inbound" "unexpected_update_format"
          "Inbound update in unexpected format"
          [("error", .str e), ("req_content", .str rawContent)]],
        store := store, respCode := 400, err := none }
  | .ok update =>
      match update.getItem "update_id" with
      | .error e => { trace := [], store := store, respCode := 200,
                      err := some e }
      | .ok update_id =>
          let key := get_update_id_key update_id
          let dup := store.contains key
          if dup then
            { trace := [.checkDup key true], store := store,
              respCode := 200, err := none }
          else
            let pre := [Event.checkDup key false, Event.markSeen key]
            let store' := store ++ [key]
            if update.hasKey "callback_query" then
              match update.getItem "callback_query" with
              | .error e => { trace := pre, store := store',
                              respCode := 200, err := some e }
              | .ok cq =>
                  let r := handle_inbound_callback_query bot_username
                    message_id cq
                  { trace := pre ++ r.1, store := store',
                    respCode := 200, err := r.2 }
            else if update.hasKey "inline_query" then
              match update.getItem "inline_query" with
              | .error e => { trace := pre, store := store',
                              respCode := 200, err := some e }
              | .ok iq =>
                  let r := handle_inbound_inline_query bot_username
                    message_id iq
                  { trace := pre ++ r.1, store := store',
                    respCode := 200, err := r.2 }
            else if !update.hasKey "message" then
              { trace := pre, store := store', respCode := 200, err := none }
            else
              match update.getItem "message" with
              | .error e => { trace := pre, store := store',
                              respCode := 200, err := some e }
              | .ok message =>
                  if !message.hasKey "text" then
                    { trace := pre, store := store', respCode := 200,
                      err := none }
                  else
                    match translate_inbound_message message with
                    | .error e => { trace := pre, store := store',
                                    respCode := 200, err := some e }
                    | .ok m =>
                        { trace := pre ++ [.publish {
                            message_id := message_id,
                            content := m.content,
                            to_addr := bot_username,
                            to_addr_type := "telegram_username",
                            from_addr := m.from_addr,
                            from_addr_type := "telegram_id",
                            transport_type := "telegram",
                            transport_name := "telegram_transport",
                            helper_metadata := .obj [("telegram", .obj [
                              ("telegram_username", m.telegram_username)])],
                            transport_metadata := .obj [
                              ("telegram_msg_id", m.telegram_msg_id),
                              ("telegram_username", m.telegram_username)] },
                          .status "ok" "telegram_inbound" "good_inbound"
                            "Good inbound request" []],
                          store := store', respCode := 200, err := none }

/-- A canonical outbound Vumi message as `handle_outbound_message`
reads it.  The named fields always exist on a Vumi
`TransportUserMessage`; `transport_metadata` and `helper_metadata` are
always dicts there, so they are modelled as field lists. -/
structure OutMsg where
  message_id : String
  content : JVal
  to_addr : JVal
  in_reply_to : Option JVal
  transport_metadata : List (String × JVal)
  helper_metadata : List (String × JVal)
deriving Repr

/-- Python `d.get(k)` on a top-level message dict field. -/
def dget (fields : List (String × JVal)) (k : String) : JVal :=
  (fields.lookup k).getD .null

/-- Python `d[k]` on a top-level message dict field. -/
def dgetItem (fields : List (String × JVal)) (k : String) :
    Except PyErr JVal :=
  match fields.lookup k with
  | some v => .ok v
  | none => .error (.keyError k)

/-- `TelegramTransport.outbound_failure`: one nack, then one `down`
status on the `telegram_outbound` component. -/
def outbound_failure (status_type message_id message : String)
    (details : List (String × JVal)) : List Event :=
  [.nack message_id message,
   .status "down" "telegram_outbound" status_type message details]

/-- `TelegramTransport.outbound_success`: one ack with
`user_message_id = sent_message_id = message_id`, then the
`good_outbound_request` status. -/
def outbound_success (message_id : String) : List Event :=
  [.ack message_id message_id,
   .status "ok" "telegram_outbound" "good_outbound_request"
     "Outbound request successful" []]

/-- `TelegramTransport.handle_outbound_callback_query`.  `response` is
the reply the one `answerCallbackQuery` POST receives.  Unguarded
accesses: `transport_metadata['details']['callback_query_id']`,
`helper_metadata['telegram']`, and `params.update(... .get('details'))`
which raises `TypeError` when `details` is missing. -/
def handle_outbound_callback_query (message_id : String) (message : OutMsg)
    (response : HttpResponse) : List Event × Option PyErr :=
  match (do
    let d ← dgetItem message.transport_metadata "details"
    let qry_id ← d.getItem "callback_query_id"
    let params0 := [("callback_query_id", qry_id), ("text", message.content)]
    let tg ← dgetItem message.helper_metadata "telegram"
    let params ← dictUpdate params0 (tg.getOpt "details")
    pure (qry_id, params) :
      Except PyErr (JVal × List (String × JVal))) with
  | .error e => ([], some e)
  | .ok (qry_id, params) =>
      let post := Event.httpPost "answerCallbackQuery" params
      match validate_outbound response with
      | .error e => ([post], some e)
      | .ok .success =>
          (post :: outbound_success message_id ++
            [.status "ok" "telegram_callback_query_reply"
              "good_callback_query_reply" "Outbound request successful" []],
           none)
      | .ok (.failure vmsg vstatus vdetails) =>
          (post :: outbound_failure vstatus message_id
            ("Callback query reply not sent: " ++ vmsg)
            (setKey vdetails "callback_query_id" qry_id),
           none)

/-- `TelegramTransport.handle_outbound_inline_query`.
`transport_metadata['details']['inline_query_id']` is read outside the
`try`; a `KeyError` while building the answer body (missing
`helper_metadata['telegram']` or missing `results`) is caught and
turned into a local nack plus `bad_inline_query_reply` status with no
HTTP call. -/
def handle_outbound_inline_query (message_id : String) (message : OutMsg)
    (response : HttpResponse) : List Event × Option PyErr :=
  match (do
    let d ← dgetItem message.transport_metadata "details"
    let query_id ← d.getItem "inline_query_id"
    pure query_id : Except PyErr JVal) with
  | .error e => ([], some e)
  | .ok query_id =>
      match (do
        let tg ← dgetItem message.helper_metadata "telegram"
        let results ← tg.getItem "results"
        pure [("inline_query_id", query_id), ("results", results)] :
          Except PyErr (List (String × JVal))) with
      | .error (.keyError _) =>
          ([.nack message_id
              "Inline query reply not sent: results field missing",
            .status "down" "telegram_inline_query_reply"
              "bad_inline_query_reply"
              "Inline query reply not sent: results field missing"
              [("error", .str ("Transport received an outbound inline " ++
                "query reply that did not contain any results. Check " ++
                "that your application is configured to reply to " ++
                "inline queries. If you\x27re not supporting inline " ++
                "queries, you should disable your bot\x27s inline " ++
                "mode."))]],
           none)
      | .error e => ([], some e)
      | .ok outbound_query_answer =>
          let post := Event.httpPost "answerInlineQuery"
            outbound_query_answer
          match validate_outbound response with
          | .error e => ([post], some e)
          | .ok .success =>
              (post :: outbound_success message_id ++
                [.status "ok" "telegram_inline_query_reply"
                  "good_inline_query_reply" "Outbound request successful"
                  []],
               none)
          | .ok (.failure vmsg vstatus vdetails) =>
              (post :: outbound_failure vstatus message_id
                ("Inline query reply not sent: " ++ vmsg)
                (setKey vdetails "inline_query_id" query_id),
               none)

/-- `TelegramTransport.handle_outbound_message`.  Dispatches on
`transport_metadata.get('type')` (inline query first, then callback
query, else plain `sendMessage`); for the plain path builds
`{chat_id, text}`, adds `reply_to_message_id` when `in_reply_to` is
set, and merges `helper_metadata['telegram']` with `KeyError` (and only
`KeyError`) swallowed. -/
def handle_outbound_message (message : OutMsg) (response : HttpResponse) :
    List Event × Option PyErr :=
  let message_id := message.message_id
  if (dget message.transport_metadata "type").isStrEq "inline_query" then
    handle_outbound_inline_query message_id message response
  else if (dget message.transport_metadata "type").isStrEq "callback_query"
      then
    handle_outbound_callback_query message_id message response
  else
    match (do
      let outbound0 := [("chat_id", message.to_addr),
                        ("text", message.content)]
      let outbound1 ← match message.in_reply_to with
        | some _ => do
            let telegram_msg_id ←
              dgetItem message.transport_metadata "telegram_msg_id"
            pure (setKey outbound0 "reply_to_message_id" telegram_msg_id)
        | none => pure outbound0
      -- try: update(helper_metadata['telegram']) except KeyError: pass
      let outbound2 ← match dgetItem message.helper_metadata "telegram" with
        | .error (.keyError _) => pure outbound1
        | .error e => throw e
        | .ok tg => dictUpdate outbound1 tg
      pure outbound2 : Except PyErr (List (String × JVal))) with
    | .error e => ([], some e)
    | .ok outbound_msg =>
        let post := Event.httpPost "sendMessage" outbound_msg
        match validate_outbound response with
        | .error e => ([post], some e)
        | .ok .success => (post :: outbound_success message_id, none)
        | .ok (.failure vmsg vstatus vdetails) =>
            (post :: outbound_failure vstatus message_id
              ("Message not sent: " ++ vmsg) vdetails,
             none)

/-! ### Helper lemmas -/

theorem lookup_cons_eq_if {β : Type} (k a : String) (b : β)
    (es : List (String × β)) :
    List.lookup k ((a, b) :: es) = if k = a then some b
      else List.lookup k es := by
  rw [List.lookup_cons]
  by_cases h : k = a
  · simp [h]
  · simp [beq_false_of_ne h, h]

theorem JVal.hasKey_of_getItem_ok {u : JVal} {k : String} {v : JVal}
    (h : u.getItem k = .ok v) : u.hasKey k = true := by
  cases u with
  | obj fields =>
      simp only [JVal.hasKey]
      cases hl : List.lookup k fields with
      | none => simp [JVal.getItem, hl] at h
      | some w => simp
  | null => exact Except.noConfusion h
  | bool b => exact Except.noConfusion h
  | int n => exact Except.noConfusion h
  | str s => exact Except.noConfusion h
  | arr es => exact Except.noConfusion h

theorem JVal.getItem_ok_of_hasKey {u : JVal} {k : String}
    (h : u.hasKey k = true) : ∃ v, u.getItem k = .ok v := by
  cases u with
  | obj fields =>
      cases hl : List.lookup k fields with
      | none => simp [JVal.hasKey, hl] at h
      | some w => exact ⟨w, by simp [JVal.getItem, hl]⟩
  | null => simp [JVal.hasKey] at h
  | bool b => simp [JVal.hasKey] at h
  | int n => simp [JVal.hasKey] at h
  | str s => simp [JVal.hasKey] at h
  | arr es => simp [JVal.hasKey] at h

theorem JVal.getOpt_eq_null_of_not_hasKey {u : JVal} {k : String}
    (h : u.hasKey k = false) : u.getOpt k = .null := by
  cases u <;> simp only [JVal.getOpt]
  case obj fields =>
    simp only [JVal.hasKey] at h
    cases hl : List.lookup k fields with
    | none => simp
    | some w => rw [hl] at h; exact absurd h (by simp)

theorem lookup_map_replace (fields : List (String × JVal)) (k k' : String)
    (v : JVal) :
    (fields.map fun kv => if kv.1 = k then (k, v) else kv).lookup k' =
      if k' = k then (fields.lookup k).map (fun _ => v)
      else fields.lookup k' := by
  induction fields with
  | nil => by_cases h : k' = k <;> simp [h]
  | cons kv rest ih =>
      obtain ⟨a, b⟩ := kv
      by_cases h2 : k' = k
      · subst h2
        by_cases h1 : a = k'
        · subst h1
          simp [lookup_cons_eq_if, ih]
        · have hne : k' ≠ a := fun hh => h1 hh.symm
          simp [lookup_cons_eq_if, h1, hne, ih]
      · by_cases h1 : a = k
        · subst h1
          have hne : k' ≠ a := h2
          simp [lookup_cons_eq_if, hne, h2, ih]
        · by_cases h3 : k' = a <;>
            simp [lookup_cons_eq_if, h1, h2, h3, ih]

theorem lookup_setKey_self (fields : List (String × JVal)) (k : String)
    (v : JVal) : (setKey fields k v).lookup k = some v := by
  cases hl : List.lookup k fields with
  | some w =>
      simp only [setKey, hl]
      rw [lookup_map_replace]
      simp [hl]
  | none =>
      simp only [setKey, hl]
      rw [List.lookup_append, hl]
      simp [lookup_cons_eq_if]

theorem lookup_setKey_ne (fields : List (String × JVal)) (k k' : String)
    (v : JVal) (h : k' ≠ k) :
    (setKey fields k v).lookup k' = fields.lookup k' := by
  cases hs : List.lookup k fields with
  | some w =>
      simp only [setKey, hs]
      rw [lookup_map_replace]
      simp [h]
  | none =>
      simp only [setKey, hs]
      rw [List.lookup_append]
      cases hl : List.lookup k' fields with
      | none => simp [lookup_cons_eq_if, h]
      | some w => simp

theorem lookup_foldl_setKey_not_mem (fields : List (String × JVal))
    (acc : List (String × JVal)) (k : String)
    (h : k ∉ fields.map Prod.fst) :
    ((fields.foldl (fun a kv => setKey a kv.1 kv.2) acc).lookup k) =
      acc.lookup k := by
  induction fields generalizing acc with
  | nil => simp
  | cons kv rest ih =>
      obtain ⟨a, b⟩ := kv
      simp only [List.map_cons, List.mem_cons, not_or] at h
      simp only [List.foldl_cons]
      rw [ih _ (by simpa using h.2)]
      exact lookup_setKey_ne _ _ _ _ h.1

theorem lookup_foldl_setKey_mem (fields : List (String × JVal))
    (acc : List (String × JVal)) (k : String) (v : JVal)
    (hnd : (fields.map Prod.fst).Nodup) (h : (k, v) ∈ fields) :
    ((fields.foldl (fun a kv => setKey a kv.1 kv.2) acc).lookup k) =
      some v := by
  induction fields generalizing acc with
  | nil => simp at h
  | cons kv rest ih =>
      obtain ⟨a, b⟩ := kv
      simp only [List.map_cons, List.nodup_cons] at hnd
      rcases List.mem_cons.mp h with heq | hmem
      · have hk : k = a := (Prod.ext_iff.mp heq).1
        have hv : v = b := (Prod.ext_iff.mp heq).2
        subst hk; subst hv
        simp only [List.foldl_cons]
        rw [lookup_foldl_setKey_not_mem _ _ _ hnd.1]
        exact lookup_setKey_self _ _ _
      · exact ih _ hnd.2 hmem

/-! ### C2: response classification order in `validate_outbound` -/

/-- C2: `validate_outbound` classifies every HTTP response in this
order: a 302 response yields the `request_redirected` failure without
inspecting the body; otherwise an unparseable body yields the
`unexpected_response_format` failure carrying the code, parse error and
raw body; otherwise code 200 with truthy `ok` yields success; otherwise
(200 with falsy `ok`, or any other code) the `bad_response` failure
carrying the code and the body's `description`. -/
theorem C2_validate_outbound_classification :
    (∀ r : HttpResponse, r.code = 302 →
      validate_outbound r = .ok (.failure "request redirected"
        "request_redirected"
        [("error", .str "Unexpected redirect"), ("res_code", .int 302)]))
    ∧ (∀ (r : HttpResponse) (e : String), r.code ≠ 302 →
      r.jsonResult = .error e →
      validate_outbound r = .ok (.failure "unexpected response format"
        "unexpected_response_format"
        [("error", .str e), ("res_code", .int r.code),
         ("res_body", .str r.rawContent)]))
    ∧ (∀ (r : HttpResponse) (body okv : JVal), r.code = 200 →
      r.jsonResult = .ok body → body.getItem "ok" = .ok okv →
      okv.truthy = true →
      validate_outbound r = .ok .success)
    ∧ (∀ (r : HttpResponse) (body okv desc : JVal), r.code = 200 →
      r.jsonResult = .ok body → body.getItem "ok" = .ok okv →
      okv.truthy = false → body.getItem "description" = .ok desc →
      validate_outbound r = .ok (.failure "bad response from Telegram"
        "bad_response" [("error", desc), ("res_code", .int 200)]))
    ∧ (∀ (r : HttpResponse) (body desc : JVal), r.code ≠ 302 →
      r.code ≠ 200 →
      r.jsonResult = .ok body → body.getItem "description" = .ok desc →
      validate_outbound r = .ok (.failure "bad response from Telegram"
        "bad_response" [("error", desc), ("res_code", .int r.code)])) := by
  refine ⟨?_, ?_, ?_, ?_, ?_⟩
  · intro r h
    simp [validate_outbound, h]
  · intro r e h302 hjson
    simp [validate_outbound, h302, hjson]
  · intro r body okv h200 hjson hok htr
    simp [validate_outbound, h200, hjson, hok, htr]
  · intro r body okv desc h200 hjson hok htr hdesc
    simp [validate_outbound, h200, hjson, hok, htr, hdesc]
  · intro r body desc h302 h200 hjson hdesc
    simp [validate_outbound, h302, h200, hjson, hdesc]

/-- Witness for C2 at concrete responses: one per classification
branch, including a 302 whose body is valid JSON with `ok: true`. -/
theorem C2_validate_outbound_classification_witness :
    validate_outbound ⟨302, .ok (.obj [("ok", .bool true)]), ""⟩ =
      .ok (.failure "request redirected" "request_redirected"
        [("error", .str "Unexpected redirect"), ("res_code", .int 302)])
    ∧ validate_outbound ⟨200, .error "No JSON object could be decoded",
        "<html>"⟩ =
      .ok (.failure "unexpected response format"
        "unexpected_response_format"
        [("error", .str "No JSON object could be decoded"),
         ("res_code", .int 200), ("res_body", .str "<html>")])
    ∧ validate_outbound ⟨200, .ok (.obj [("ok", .bool true)]), ""⟩ =
      .ok .success
    ∧ validate_outbound ⟨200, .ok (.obj [("ok", .bool false),
        ("description", .str "Bad request")]), ""⟩ =
      .ok (.failure "bad response from Telegram" "bad_response"
        [("error", .str "Bad request"), ("res_code", .int 200)])
    ∧ validate_outbound ⟨404, .ok (.obj [("ok", .bool false),
        ("description", .str "Not Found")]), ""⟩ =
      .ok (.failure "bad response from Telegram" "bad_response"
        [("error", .str "Not Found"), ("res_code", .int 404)]) :=
  ⟨C2_validate_outbound_classification.1 _ rfl,
   C2_validate_outbound_classification.2.1 _ _ (by decide) rfl,
   C2_validate_outbound_classification.2.2.1 _ _ _ rfl rfl rfl rfl,
   C2_validate_outbound_classification.2.2.2.1 _ _ _ _ rfl rfl rfl rfl rfl,
   C2_validate_outbound_classification.2.2.2.2 _ _ _ (by decide) (by decide)
     rfl rfl⟩

/-! ### C6: the inbound text-message translation -/

theorem publishesOf_append (a b : List Event) :
    publishesOf (a ++ b) = publishesOf a ++ publishesOf b := by
  simp [publishesOf, List.filterMap_append]

/-- Simp set that evaluates the `Except` monad operations our
embedded handlers are written with. -/
theorem except_pure_eq_ok {ε α : Type} (a : α) :
    (pure a : Except ε α) = .ok a := rfl

theorem to_addr_of_publish_callback (bot mid : String) (cq : JVal)
    (m : PubMsg)
    (h : m ∈ publishesOf (handle_inbound_callback_query bot mid cq).1) :
    m.to_addr = bot := by
  unfold handle_inbound_callback_query at h
  split at h
  · simp [publishesOf] at h
  · simp [publishesOf] at h
    subst h
    rfl

theorem to_addr_of_publish_inline (bot mid : String) (iq : JVal)
    (m : PubMsg)
    (h : m ∈ publishesOf (handle_inbound_inline_query bot mid iq).1) :
    m.to_addr = bot := by
  unfold handle_inbound_inline_query at h
  split at h
  · simp [publishesOf] at h
  · simp [publishesOf] at h
    subst h
    rfl

/-- Every `CanonicalMessage` published by the inbound webhook handler
carries the configured bot username as `to_addr`. -/
theorem inbound_publish_to_addr (bot mid : String) (store : List String)
    (raw : String) (parsed : Except String JVal) (m : PubMsg)
    (hm : m ∈ publishesOf
      (handle_raw_inbound_message bot mid store raw parsed).trace) :
    m.to_addr = bot := by
  simp only [handle_raw_inbound_message] at hm
  split at hm
  · simp [publishesOf] at hm
  · split at hm
    · simp [publishesOf] at hm
    · split at hm
      · simp [publishesOf] at hm
      · split at hm
        · split at hm
          · simp [publishesOf] at hm
          · simp only [publishesOf_append, List.mem_append] at hm
            rcases hm with h | h
            · simp [publishesOf] at h
            · exact to_addr_of_publish_callback _ _ _ _ h
        · split at hm
          · split at hm
            · simp [publishesOf] at hm
            · simp only [publishesOf_append, List.mem_append] at hm
              rcases hm with h | h
              · simp [publishesOf] at h
              · exact to_addr_of_publish_inline _ _ _ _ h
          · split at hm
            · simp [publishesOf] at hm
            · split at hm
              · simp [publishesOf] at hm
              · split at hm
                · simp [publishesOf] at hm
                · split at hm
                  · simp [publishesOf] at hm
                  · simp [publishesOf] at hm
                    subst hm
                    rfl

/-- C6: `translate_inbound_message` is total on text-message objects:
its `content` is `message.text`; `from_addr` is `message.from.id` when
`from` is present and `message.chat.id` otherwise; the username comes
from the same object via guarded access, so its absence yields `null`
rather than an error; and every `CanonicalMessage` the inbound handler
publishes has the configured bot username as `to_addr`. -/
theorem C6_translate_inbound_message_pure :
    (∀ (message mid txt f fid : JVal),
      message.getItem "message_id" = .ok mid →
      message.getItem "text" = .ok txt →
      message.hasKey "from" = true →
      message.getItem "from" = .ok f →
      f.getItem "id" = .ok fid →
      translate_inbound_message message =
        .ok ⟨mid, txt, fid, f.getOpt "username"⟩)
    ∧ (∀ (message mid txt c cid : JVal),
      message.getItem "message_id" = .ok mid →
      message.getItem "text" = .ok txt →
      message.hasKey "from" = false →
      message.getItem "chat" = .ok c →
      c.getItem "id" = .ok cid →
      translate_inbound_message message =
        .ok ⟨mid, txt, cid, c.getOpt "username"⟩)
    ∧ (∀ (v : JVal) (k : String), v.hasKey k = false → v.getOpt k = .null)
    ∧ (∀ (bot mid : String) (store : List String) (raw : String)
        (parsed : Except String JVal) (m : PubMsg),
      m ∈ publishesOf
        (handle_raw_inbound_message bot mid store raw parsed).trace →
      m.to_addr = bot) := by
  refine ⟨?_, ?_, ?_, ?_⟩
  · intro message mid txt f fid hmid htxt hfrom hf hfid
    simp [translate_inbound_message, hmid, htxt, hfrom, hf, hfid,
      bind, Except.bind, pure, Except.pure, Functor.map, Except.map]
  · intro message mid txt c cid hmid htxt hfrom hc hcid
    simp [translate_inbound_message, hmid, htxt, hfrom, hc, hcid,
      bind, Except.bind, pure, Except.pure, Functor.map, Except.map]
  · intro v k h
    exact JVal.getOpt_eq_null_of_not_hasKey h
  · intro bot mid store raw parsed m hm
    exact inbound_publish_to_addr bot mid store raw parsed m hm

/-- Witness for C6: a user message with a username, a channel post
without `from`, and a `from` object lacking `username`. -/
theorem C6_translate_inbound_message_pure_witness :
    translate_inbound_message (.obj [
        ("message_id", .int 5),
        ("from", .obj [("id", .int 42), ("username", .str "@bob")]),
        ("chat", .obj [("id", .int 42)]),
        ("text", .str "hi")]) =
      .ok ⟨.int 5, .str "hi", .int 42, .str "@bob"⟩
    ∧ translate_inbound_message (.obj [
        ("message_id", .int 6),
        ("chat", .obj [("id", .int 987)]),
        ("text", .str "channel post")]) =
      .ok ⟨.int 6, .str "channel post", .int 987, .null⟩
    ∧ (JVal.obj [("id", .int 42)]).getOpt "username" = .null := by
  refine ⟨?_, ?_, ?_⟩
  · exact C6_translate_inbound_message_pure.1
      (.obj [("message_id", .int 5),
        ("from", .obj [("id", .int 42), ("username", .str "@bob")]),
        ("chat", .obj [("id", .int 42)]), ("text", .str "hi")])
      (.int 5) (.str "hi")
      (.obj [("id", .int 42), ("username", .str "@bob")]) (.int 42)
      rfl rfl rfl rfl rfl
  · exact C6_translate_inbound_message_pure.2.1
      (.obj [("message_id", .int 6), ("chat", .obj [("id", .int 987)]),
        ("text", .str "channel post")])
      (.int 6) (.str "channel post")
      (.obj [("id", .int 987)]) (.int 987)
      rfl rfl rfl rfl rfl
  · exact C6_translate_inbound_message_pure.2.2.1
      (.obj [("id", .int 42)]) "username" rfl

/-! ### Branch characterizations of `handle_raw_inbound_message` -/

theorem handle_raw_parse_error (bot mid : String) (store : List String)
    (raw : String) (e : String) :
    handle_raw_inbound_message bot mid store raw (.error e) =
      { trace := [.status "down" "telegram_inbound" "unexpected_update_format"
          "Inbound update in unexpected format"
          [("error", .str e), ("req_content", .str raw)]],
        store := store, respCode := 400, err := none } := rfl

theorem handle_raw_dup (bot mid : String) (store : List String)
    (raw : String) (u uid : JVal)
    (huid : u.getItem "update_id" = .ok uid)
    (hdup : store.contains (get_update_id_key uid) = true) :
    handle_raw_inbound_message bot mid store raw (.ok u) =
      { trace := [.checkDup (get_update_id_key uid) true], store := store,
        respCode := 200, err := none } := by
  have hdup' : get_update_id_key uid ∈ store := by simpa using hdup
  simp [handle_raw_inbound_message, huid, hdup']

theorem handle_raw_cb (bot mid : String) (store : List String)
    (raw : String) (u uid cq : JVal)
    (huid : u.getItem "update_id" = .ok uid)
    (hdup : store.contains (get_update_id_key uid) = false)
    (hcq : u.getItem "callback_query" = .ok cq) :
    handle_raw_inbound_message bot mid store raw (.ok u) =
      { trace := [.checkDup (get_update_id_key uid) false,
          .markSeen (get_update_id_key uid)] ++
          (handle_inbound_callback_query bot mid cq).1,
        store := store ++ [get_update_id_key uid], respCode := 200,
        err := (handle_inbound_callback_query bot mid cq).2 } := by
  have hdup' : get_update_id_key uid ∉ store := by simpa using hdup
  have hcb := JVal.hasKey_of_getItem_ok hcq
  simp [handle_raw_inbound_message, huid, hdup', hcb, hcq]

theorem handle_raw_il (bot mid : String) (store : List String)
    (raw : String) (u uid iq : JVal)
    (huid : u.getItem "update_id" = .ok uid)
    (hdup : store.contains (get_update_id_key uid) = false)
    (hcbF : u.hasKey "callback_query" = false)
    (hiq : u.getItem "inline_query" = .ok iq) :
    handle_raw_inbound_message bot mid store raw (.ok u) =
      { trace := [.checkDup (get_update_id_key uid) false,
          .markSeen (get_update_id_key uid)] ++
          (handle_inbound_inline_query bot mid iq).1,
        store := store ++ [get_update_id_key uid], respCode := 200,
        err := (handle_inbound_inline_query bot mid iq).2 } := by
  have hdup' : get_update_id_key uid ∉ store := by simpa using hdup
  have hil := JVal.hasKey_of_getItem_ok hiq
  simp [handle_raw_inbound_message, huid, hdup', hcbF, hil, hiq]

theorem handle_raw_no_message (bot mid : String) (store : List String)
    (raw : String) (u uid : JVal)
    (huid : u.getItem "update_id" = .ok uid)
    (hdup : store.contains (get_update_id_key uid) = false)
    (hcbF : u.hasKey "callback_query" = false)
    (hilF : u.hasKey "inline_query" = false)
    (hmsgF : u.hasKey "message" = false) :
    handle_raw_inbound_message bot mid store raw (.ok u) =
      { trace := [.checkDup (get_update_id_key uid) false,
          .markSeen (get_update_id_key uid)],
        store := store ++ [get_update_id_key uid], respCode := 200,
        err := none } := by
  have hdup' : get_update_id_key uid ∉ store := by simpa using hdup
  simp [handle_raw_inbound_message, huid, hdup', hcbF, hilF, hmsgF]

theorem handle_raw_no_text (bot mid : String) (store : List String)
    (raw : String) (u uid message : JVal)
    (huid : u.getItem "update_id" = .ok uid)
    (hdup : store.contains (get_update_id_key uid) = false)
    (hcbF : u.hasKey "callback_query" = false)
    (hilF : u.hasKey "inline_query" = false)
    (hms : u.getItem "message" = .ok message)
    (htxtF : message.hasKey "text" = false) :
    handle_raw_inbound_message bot mid store raw (.ok u) =
      { trace := [.checkDup (get_update_id_key uid) false,
          .markSeen (get_update_id_key uid)],
        store := store ++ [get_update_id_key uid], respCode := 200,
        err := none } := by
  have hdup' : get_update_id_key uid ∉ store := by simpa using hdup
  have hmsgT := JVal.hasKey_of_getItem_ok hms
  simp [handle_raw_inbound_message, huid, hdup', hcbF, hilF, hmsgT, hms,
    htxtF]

theorem handle_raw_text (bot mid : String) (store : List String)
    (raw : String) (u uid message : JVal) (tm : TranslatedMsg)
    (huid : u.getItem "update_id" = .ok uid)
    (hdup : store.contains (get_update_id_key uid) = false)
    (hcbF : u.hasKey "callback_query" = false)
    (hilF : u.hasKey "inline_query" = false)
    (hms : u.getItem "message" = .ok message)
    (htxtT : message.hasKey "text" = true)
    (htr : translate_inbound_message message = .ok tm) :
    handle_raw_inbound_message bot mid store raw (.ok u) =
      { trace := [.checkDup (get_update_id_key uid) false,
          .markSeen (get_update_id_key uid),
          .publish {
            message_id := mid,
            content := tm.content,
            to_addr := bot,
            to_addr_type := "telegram_username",
            from_addr := tm.from_addr,
            from_addr_type := "telegram_id",
            transport_type := "telegram",
            transport_name := "telegram_transport",
            helper_metadata := .obj [("telegram", .obj [
              ("telegram_username", tm.telegram_username)])],
            transport_metadata := .obj [
              ("telegram_msg_id", tm.telegram_msg_id),
              ("telegram_username", tm.telegram_username)] },
          .status "ok" "telegram_inbound" "good_inbound"
            "Good inbound request" []],
        store := store ++ [get_update_id_key uid], respCode := 200,
        err := none } := by
  have hdup' : get_update_id_key uid ∉ store := by simpa using hdup
  have hmsgT := JVal.hasKey_of_getItem_ok hms
  simp [handle_raw_inbound_message, huid, hdup', hcbF, hilF, hmsgT, hms,
    htxtT, htr]

/-! ### C3: dispatch priority on the inbound payload shape -/

/-- C3: inbound dispatch is first-match-wins: `callback_query` wins
over everything; else `inline_query`; else a `message` with `text` is
published as a text message; otherwise nothing is published and the
response is 200. -/
theorem C3_inbound_dispatch_priority :
    ∀ (bot mid : String) (store : List String) (raw : String) (u uid : JVal),
      u.getItem "update_id" = .ok uid →
      store.contains (get_update_id_key uid) = false →
      ((∀ cq, u.getItem "callback_query" = .ok cq →
        (handle_raw_inbound_message bot mid store raw (.ok u)).trace =
          [.checkDup (get_update_id_key uid) false,
           .markSeen (get_update_id_key uid)] ++
          (handle_inbound_callback_query bot mid cq).1)
      ∧ (u.hasKey "callback_query" = false →
        ∀ iq, u.getItem "inline_query" = .ok iq →
        (handle_raw_inbound_message bot mid store raw (.ok u)).trace =
          [.checkDup (get_update_id_key uid) false,
           .markSeen (get_update_id_key uid)] ++
          (handle_inbound_inline_query bot mid iq).1)
      ∧ (u.hasKey "callback_query" = false →
        u.hasKey "inline_query" = false →
        ∀ message tm, u.getItem "message" = .ok message →
        message.hasKey "text" = true →
        translate_inbound_message message = .ok tm →
        publishesOf (handle_raw_inbound_message bot mid store raw
            (.ok u)).trace =
          [{ message_id := mid, content := tm.content, to_addr := bot,
             to_addr_type := "telegram_username",
             from_addr := tm.from_addr, from_addr_type := "telegram_id",
             transport_type := "telegram",
             transport_name := "telegram_transport",
             helper_metadata := .obj [("telegram", .obj [
               ("telegram_username", tm.telegram_username)])],
             transport_metadata := .obj [
               ("telegram_msg_id", tm.telegram_msg_id),
               ("telegram_username", tm.telegram_username)] }]
        ∧ (handle_raw_inbound_message bot mid store raw (.ok u)).respCode
            = 200)
      ∧ (u.hasKey "callback_query" = false →
        u.hasKey "inline_query" = false →
        (u.hasKey "message" = false ∨
          ∃ message, u.getItem "message" = .ok message ∧
            message.hasKey "text" = false) →
        publishesOf (handle_raw_inbound_message bot mid store raw
            (.ok u)).trace = []
        ∧ (handle_raw_inbound_message bot mid store raw (.ok u)).respCode
            = 200
        ∧ (handle_raw_inbound_message bot mid store raw (.ok u)).err
            = none)) := by
  intro bot mid store raw u uid huid hdup
  refine ⟨?_, ?_, ?_, ?_⟩
  · intro cq hcq
    rw [handle_raw_cb bot mid store raw u uid cq huid hdup hcq]
  · intro hcbF iq hiq
    rw [handle_raw_il bot mid store raw u uid iq huid hdup hcbF hiq]
  · intro hcbF hilF message tm hms htxtT htr
    rw [handle_raw_text bot mid store raw u uid message tm huid hdup hcbF
      hilF hms htxtT htr]
    exact ⟨by simp [publishesOf], rfl⟩
  · intro hcbF hilF hrest
    rcases hrest with hmsgF | ⟨message, hms, htxtF⟩
    · rw [handle_raw_no_message bot mid store raw u uid huid hdup hcbF
        hilF hmsgF]
      exact ⟨by simp [publishesOf], rfl, rfl⟩
    · rw [handle_raw_no_text bot mid store raw u uid message huid hdup
        hcbF hilF hms htxtF]
      exact ⟨by simp [publishesOf], rfl, rfl⟩

/-- Witness for C3: an update carrying both a callback query and a
message dispatches to the callback path; an inline-query update to the
inline path; a text message is published; a message without text
terminates with 200 and no publish. -/
theorem C3_inbound_dispatch_priority_witness :
    ((handle_raw_inbound_message "@bot" "m1" [] "raw" (.ok (.obj
        [("update_id", .int 1),
         ("callback_query", .obj [("id", .int 9)]),
         ("message", .obj [("text", .str "hi")])]))).trace =
      [.checkDup (get_update_id_key (.int 1)) false,
       .markSeen (get_update_id_key (.int 1))] ++
      (handle_inbound_callback_query "@bot" "m1"
        (.obj [("id", .int 9)])).1)
    ∧ ((handle_raw_inbound_message "@bot" "m2" [] "raw" (.ok (.obj
        [("update_id", .int 2),
         ("inline_query", .obj [("id", .int 7)])]))).trace =
      [.checkDup (get_update_id_key (.int 2)) false,
       .markSeen (get_update_id_key (.int 2))] ++
      (handle_inbound_inline_query "@bot" "m2"
        (.obj [("id", .int 7)])).1)
    ∧ (publishesOf (handle_raw_inbound_message "@bot" "m3" [] "raw"
        (.ok (.obj [("update_id", .int 3),
          ("message", .obj [("message_id", .int 5),
            ("from", .obj [("id", .int 42), ("username", .str "@bob")]),
            ("chat", .obj [("id", .int 42)]),
            ("text", .str "hi")])]))).trace =
      [{ message_id := "m3", content := .str "hi", to_addr := "@bot",
         to_addr_type := "telegram_username",
         from_addr := .int 42, from_addr_type := "telegram_id",
         transport_type := "telegram",
         transport_name := "telegram_transport",
         helper_metadata := .obj [("telegram", .obj [
           ("telegram_username", .str "@bob")])],
         transport_metadata := .obj [
           ("telegram_msg_id", .int 5),
           ("telegram_username", .str "@bob")] }])
    ∧ (publishesOf (handle_raw_inbound_message "@bot" "m4" [] "raw"
        (.ok (.obj [("update_id", .int 4),
          ("message", .obj [("photo", .arr [])])]))).trace = []
      ∧ (handle_raw_inbound_message "@bot" "m4" [] "raw"
        (.ok (.obj [("update_id", .int 4),
          ("message", .obj [("photo", .arr [])])]))).respCode = 200) := by
  refine ⟨?_, ?_, ?_, ?_, ?_⟩
  · exact (C3_inbound_dispatch_priority "@bot" "m1" [] "raw"
      (.obj [("update_id", .int 1),
        ("callback_query", .obj [("id", .int 9)]),
        ("message", .obj [("text", .str "hi")])])
      (.int 1) rfl rfl).1 (.obj [("id", .int 9)]) rfl
  · exact (C3_inbound_dispatch_priority "@bot" "m2" [] "raw"
      (.obj [("update_id", .int 2),
        ("inline_query", .obj [("id", .int 7)])])
      (.int 2) rfl rfl).2.1 rfl (.obj [("id", .int 7)]) rfl
  · exact ((C3_inbound_dispatch_priority "@bot" "m3" [] "raw"
      (.obj [("update_id", .int 3),
        ("message", .obj [("message_id", .int 5),
          ("from", .obj [("id", .int 42), ("username", .str "@bob")]),
          ("chat", .obj [("id", .int 42)]),
          ("text", .str "hi")])])
      (.int 3) rfl rfl).2.2.1 rfl rfl
      (.obj [("message_id", .int 5),
        ("from", .obj [("id", .int 42), ("username", .str "@bob")]),
        ("chat", .obj [("id", .int 42)]),
        ("text", .str "hi")])
      ⟨.int 5, .str "hi", .int 42, .str "@bob"⟩ rfl rfl rfl).1
  · exact ((C3_inbound_dispatch_priority "@bot" "m4" [] "raw"
      (.obj [("update_id", .int 4),
        ("message", .obj [("photo", .arr [])])])
      (.int 4) rfl rfl).2.2.2 rfl rfl
      (.inr ⟨.obj [("photo", .arr [])], rfl, rfl⟩)).1
  · exact ((C3_inbound_dispatch_priority "@bot" "m4" [] "raw"
      (.obj [("update_id", .int 4),
        ("message", .obj [("photo", .arr [])])])
      (.int 4) rfl rfl).2.2.2 rfl rfl
      (.inr ⟨.obj [("photo", .arr [])], rfl, rfl⟩)).2.1

/-! ### C1: duplicate updates publish exactly once -/

theorem publishesOf_cb_le_one (bot mid : String) (cq : JVal) :
    (publishesOf (handle_inbound_callback_query bot mid cq).1).length
      ≤ 1 := by
  unfold handle_inbound_callback_query
  split <;> simp [publishesOf]

theorem publishesOf_il_le_one (bot mid : String) (iq : JVal) :
    (publishesOf (handle_inbound_inline_query bot mid iq).1).length
      ≤ 1 := by
  unfold handle_inbound_inline_query
  split <;> simp [publishesOf]

theorem handle_raw_publishes_le_one (bot mid : String)
    (store : List String) (raw : String) (parsed : Except String JVal) :
    (publishesOf
      (handle_raw_inbound_message bot mid store raw parsed).trace).length
      ≤ 1 := by
  simp only [handle_raw_inbound_message]
  split
  · simp [publishesOf]
  · split
    · simp [publishesOf]
    · split
      · simp [publishesOf]
      · split
        · split
          · simp [publishesOf]
          · simp only [publishesOf_append, List.length_append]
            simpa [publishesOf] using publishesOf_cb_le_one bot mid _
        · split
          · split
            · simp [publishesOf]
            · simp only [publishesOf_append, List.length_append]
              simpa [publishesOf] using publishesOf_il_le_one bot mid _
          · split
            · simp [publishesOf]
            · split
              · simp [publishesOf]
              · split
                · simp [publishesOf]
                · split
                  · simp [publishesOf]
                  · simp [publishesOf]

theorem handle_raw_store_not_dup (bot mid : String) (store : List String)
    (raw : String) (u uid : JVal)
    (huid : u.getItem "update_id" = .ok uid)
    (hdup : store.contains (get_update_id_key uid) = false) :
    (handle_raw_inbound_message bot mid store raw (.ok u)).store =
      store ++ [get_update_id_key uid] := by
  simp only [handle_raw_inbound_message, huid]
  rw [if_neg (by simpa using hdup)]
  repeat' split
  all_goals rfl

theorem handle_raw_trace_not_dup (bot mid : String) (store : List String)
    (raw : String) (u uid : JVal)
    (huid : u.getItem "update_id" = .ok uid)
    (hdup : store.contains (get_update_id_key uid) = false) :
    ∃ rest,
      (handle_raw_inbound_message bot mid store raw (.ok u)).trace =
        .checkDup (get_update_id_key uid) false ::
        .markSeen (get_update_id_key uid) :: rest := by
  simp only [handle_raw_inbound_message, huid]
  rw [if_neg (by simpa using hdup)]
  repeat' split
  all_goals exact ⟨_, rfl⟩

/-- C1: when the same parsed update is delivered twice (the first
delivery finding its `update_id` unseen), the first run checks the
dedup key, then marks it, then dispatches; the second run sees the key,
publishes nothing, performs no `setex`, and leaves the store unchanged,
so the pair publishes exactly what the first run published — at most
one message, and exactly one whenever the first run published one. -/
theorem C1_duplicate_update_single_publish :
    ∀ (bot mid1 mid2 : String) (store : List String)
      (raw1 raw2 : String) (u uid : JVal),
      u.getItem "update_id" = .ok uid →
      store.contains (get_update_id_key uid) = false →
      (∃ rest,
        (handle_raw_inbound_message bot mid1 store raw1 (.ok u)).trace =
          .checkDup (get_update_id_key uid) false ::
          .markSeen (get_update_id_key uid) :: rest)
      ∧ (handle_raw_inbound_message bot mid2
          (handle_raw_inbound_message bot mid1 store raw1 (.ok u)).store
          raw2 (.ok u)).trace =
        [.checkDup (get_update_id_key uid) true]
      ∧ (handle_raw_inbound_message bot mid2
          (handle_raw_inbound_message bot mid1 store raw1 (.ok u)).store
          raw2 (.ok u)).store =
        (handle_raw_inbound_message bot mid1 store raw1 (.ok u)).store
      ∧ marksOf (handle_raw_inbound_message bot mid2
          (handle_raw_inbound_message bot mid1 store raw1 (.ok u)).store
          raw2 (.ok u)).trace = []
      ∧ publishesOf (handle_raw_inbound_message bot mid2
          (handle_raw_inbound_message bot mid1 store raw1 (.ok u)).store
          raw2 (.ok u)).trace = []
      ∧ publishesOf
          ((handle_raw_inbound_message bot mid1 store raw1 (.ok u)).trace
            ++ (handle_raw_inbound_message bot mid2
              (handle_raw_inbound_message bot mid1 store raw1
                (.ok u)).store raw2 (.ok u)).trace) =
        publishesOf
          (handle_raw_inbound_message bot mid1 store raw1 (.ok u)).trace
      ∧ (publishesOf
          (handle_raw_inbound_message bot mid1 store raw1
            (.ok u)).trace).length ≤ 1
      ∧ ((publishesOf
          (handle_raw_inbound_message bot mid1 store raw1
            (.ok u)).trace).length = 1 →
        (publishesOf
          ((handle_raw_inbound_message bot mid1 store raw1 (.ok u)).trace
            ++ (handle_raw_inbound_message bot mid2
              (handle_raw_inbound_message bot mid1 store raw1
                (.ok u)).store raw2 (.ok u)).trace)).length = 1) := by
  intro bot mid1 mid2 store raw1 raw2 u uid huid hdup
  have hstore := handle_raw_store_not_dup bot mid1 store raw1 u uid huid
    hdup
  have hdup2 : (store ++ [get_update_id_key uid]).contains
      (get_update_id_key uid) = true := by simp
  have hr2 := handle_raw_dup bot mid2 (store ++ [get_update_id_key uid])
    raw2 u uid huid hdup2
  rw [hstore, hr2]
  refine ⟨handle_raw_trace_not_dup bot mid1 store raw1 u uid huid hdup,
    rfl, rfl, by simp [marksOf], by simp [publishesOf],
    by simp [publishesOf_append, publishesOf], ?_, ?_⟩
  · exact handle_raw_publishes_le_one bot mid1 store raw1 (.ok u)
  · intro h1
    rw [publishesOf_append]
    simpa [publishesOf] using h1

/-- Witness for C1: the end-to-end text update delivered twice against
an empty store publishes exactly one message across the two runs. -/
theorem C1_duplicate_update_single_publish_witness :
    (publishesOf
      ((handle_raw_inbound_message "@bot" "m1" [] "raw" (.ok (.obj
        [("update_id", .int 1),
         ("message", .obj [("message_id", .int 5),
           ("from", .obj [("id", .int 42), ("username", .str "@bob")]),
           ("chat", .obj [("id", .int 42)]),
           ("text", .str "hi")])]))).trace
        ++ (handle_raw_inbound_message "@bot" "m2"
          (handle_raw_inbound_message "@bot" "m1" [] "raw" (.ok (.obj
            [("update_id", .int 1),
             ("message", .obj [("message_id", .int 5),
               ("from", .obj [("id", .int 42),
                 ("username", .str "@bob")]),
               ("chat", .obj [("id", .int 42)]),
               ("text", .str "hi")])]))).store
          "raw" (.ok (.obj
            [("update_id", .int 1),
             ("message", .obj [("message_id", .int 5),
               ("from", .obj [("id", .int 42),
                 ("username", .str "@bob")]),
               ("chat", .obj [("id", .int 42)]),
               ("text", .str "hi")])]))).trace)).length = 1 :=
  (C1_duplicate_update_single_publish "@bot" "m1" "m2" [] "raw" "raw"
    (.obj [("update_id", .int 1),
      ("message", .obj [("message_id", .int 5),
        ("from", .obj [("id", .int 42), ("username", .str "@bob")]),
        ("chat", .obj [("id", .int 42)]),
        ("text", .str "hi")])])
    (.int 1) rfl rfl).2.2.2.2.2.2.2 rfl

/-! ### C5: only the parse-failure path sets a non-200 response -/

/-- C5: an unparseable request body yields exactly the
`unexpected_update_format` down status, response code 400 and no
publish; every parsed request that terminates without an exception
responds 200. -/
theorem C5_parse_failure_only_400 :
    ∀ (bot mid : String) (store : List String) (raw : String),
      (∀ e : String,
        (handle_raw_inbound_message bot mid store raw (.error e)).respCode
          = 400
        ∧ (handle_raw_inbound_message bot mid store raw (.error e)).trace
          = [.status "down" "telegram_inbound" "unexpected_update_format"
            "Inbound update in unexpected format"
            [("error", .str e), ("req_content", .str raw)]]
        ∧ publishesOf (handle_raw_inbound_message bot mid store raw
            (.error e)).trace = [])
      ∧ (∀ u : JVal,
        (handle_raw_inbound_message bot mid store raw (.ok u)).err = none →
        (handle_raw_inbound_message bot mid store raw (.ok u)).respCode
          = 200) := by
  intro bot mid store raw
  constructor
  · intro e
    rw [handle_raw_parse_error]
    exact ⟨rfl, rfl, rfl⟩
  · intro u _
    simp only [handle_raw_inbound_message]
    repeat' split
    all_goals rfl

/-- Witness for C5: a body that fails JSON parsing gets a 400 and no
publish; a parsed-but-empty update gets a 200. -/
theorem C5_parse_failure_only_400_witness :
    ((handle_raw_inbound_message "@bot" "m1" [] "<not json>"
      (.error "No JSON object could be decoded")).respCode = 400
    ∧ (handle_raw_inbound_message "@bot" "m1" [] "<not json>"
      (.error "No JSON object could be decoded")).trace
      = [.status "down" "telegram_inbound" "unexpected_update_format"
        "Inbound update in unexpected format"
        [("error", .str "No JSON object could be decoded"),
         ("req_content", .str "<not json>")]]
    ∧ publishesOf (handle_raw_inbound_message "@bot" "m1" [] "<not json>"
      (.error "No JSON object could be decoded")).trace = [])
    ∧ (handle_raw_inbound_message "@bot" "m2" [] "raw"
      (.ok (.obj [("update_id", .int 1)]))).respCode = 200 :=
  ⟨(C5_parse_failure_only_400 "@bot" "m1" [] "<not json>").1
    "No JSON object could be decoded",
   (C5_parse_failure_only_400 "@bot" "m2" [] "raw").2
    (.obj [("update_id", .int 1)]) rfl⟩

/-! ### C9: unguarded username access on the callback-query path -/

theorem JVal.getItem_keyError_of_not_hasKey
    (fields : List (String × JVal)) (k : String)
    (h : (JVal.obj fields).hasKey k = false) :
    (JVal.obj fields).getItem k = .error (.keyError k) := by
  simp only [JVal.hasKey] at h
  cases hl : List.lookup k fields with
  | none => simp [JVal.getItem, hl]
  | some w => rw [hl] at h; exact absurd h (by simp)

theorem handle_inbound_cb_username_missing (bot mid : String) (cq : JVal)
    (ffs : List (String × JVal))
    (hf : cq.getItem "from" = .ok (.obj ffs))
    (hun : (JVal.obj ffs).hasKey "username" = false) :
    handle_inbound_callback_query bot mid cq =
      ([], some (.keyError "username")) := by
  have h := JVal.getItem_keyError_of_not_hasKey ffs "username" hun
  simp [handle_inbound_callback_query, hf, h, bind, Except.bind]

/-- C9: a callback query whose `from` object lacks `username` makes the
handler raise `KeyError 'username'` (the unguarded log access):
nothing is published although the update was already marked seen, so it
never reaches the bus; by contrast the inline-query path, which uses
guarded `.get` access, still publishes when its sender has no
username. -/
theorem C9_callback_query_username_keyerror :
    ∀ (bot mid : String) (store : List String) (raw : String)
      (u uid cq : JVal) (ffs : List (String × JVal)),
      u.getItem "update_id" = .ok uid →
      store.contains (get_update_id_key uid) = false →
      u.getItem "callback_query" = .ok cq →
      cq.getItem "from" = .ok (.obj ffs) →
      (JVal.obj ffs).hasKey "username" = false →
      ((handle_raw_inbound_message bot mid store raw (.ok u)).err =
          some (.keyError "username")
      ∧ publishesOf (handle_raw_inbound_message bot mid store raw
          (.ok u)).trace = []
      ∧ (handle_raw_inbound_message bot mid store raw (.ok u)).store =
          store ++ [get_update_id_key uid]
      ∧ (∀ (iq : JVal) (gfs : List (String × JVal)) (fid q qid : JVal),
        iq.getItem "from" = .ok (.obj gfs) →
        (JVal.obj gfs).hasKey "username" = false →
        (JVal.obj gfs).getItem "id" = .ok fid →
        iq.getItem "query" = .ok q →
        iq.getItem "id" = .ok qid →
        (handle_inbound_inline_query bot mid iq).2 = none
        ∧ (publishesOf
            (handle_inbound_inline_query bot mid iq).1).length = 1)) := by
  intro bot mid store raw u uid cq ffs huid hdup hcq hf hun
  have hcb := handle_inbound_cb_username_missing bot mid cq ffs hf hun
  rw [handle_raw_cb bot mid store raw u uid cq huid hdup hcq]
  refine ⟨by rw [hcb], by rw [hcb]; simp [publishesOf], rfl, ?_⟩
  intro iq gfs fid q qid hif hgun hgid hq hqid
  have hnull := JVal.getOpt_eq_null_of_not_hasKey hgun
  constructor
  · simp [handle_inbound_inline_query, hif, hnull, hgid, hq, hqid,
      bind, Except.bind, pure, Except.pure]
  · simp [handle_inbound_inline_query, hif, hnull, hgid, hq, hqid,
      bind, Except.bind, pure, Except.pure, publishesOf]

/-- Witness for C9 at a concrete update: `from` has an `id` but no
`username`; the callback path raises while the inline path with the
same `from` object publishes. -/
theorem C9_callback_query_username_keyerror_witness :
    (handle_raw_inbound_message "@bot" "m1" [] "raw" (.ok (.obj
      [("update_id", .int 1),
       ("callback_query", .obj [
         ("id", .int 9),
         ("from", .obj [("id", .int 42)]),
         ("data", .str "choice")])]))).err =
      some (.keyError "username")
    ∧ (handle_inbound_inline_query "@bot" "m2" (.obj [
        ("id", .int 7),
        ("from", .obj [("id", .int 42)]),
        ("query", .str "q")])).2 = none := by
  have h := C9_callback_query_username_keyerror "@bot" "m1" [] "raw"
    (.obj [("update_id", .int 1),
      ("callback_query", .obj [
        ("id", .int 9),
        ("from", .obj [("id", .int 42)]),
        ("data", .str "choice")])])
    (.int 1)
    (.obj [("id", .int 9), ("from", .obj [("id", .int 42)]),
      ("data", .str "choice")])
    [("id", .int 42)] rfl rfl rfl rfl rfl
  exact ⟨h.1,
    (h.2.2.2 (.obj [("id", .int 7), ("from", .obj [("id", .int 42)]),
      ("query", .str "q")])
      [("id", .int 42)] (.int 42) (.str "q") (.int 7)
      rfl rfl rfl rfl rfl).1⟩

/-! ### C10: metadata errors on the outbound callback-query path -/

/-- C10 counterexample: a `details` that is a JSON array of key/value
pairs (`[["a", 1]]`) — not a dict — does not make the handler raise:
`params.update` accepts the pair sequence, the POST is issued with the
pair merged in, and the 200/ok response is acked.  This refutes the
claim that `handle_outbound_callback_query` completes only if
`helper_metadata.telegram.details` is a dict. -/
theorem C10_outbound_callback_query_details_list_counterexample :
    handle_outbound_callback_query "m1"
      { message_id := "m1", content := .str "choice", to_addr := .int 42,
        in_reply_to := none,
        transport_metadata := [("type", .str "callback_query"),
          ("details", .obj [("callback_query_id", .int 9)])],
        helper_metadata := [("telegram", .obj [("details",
          .arr [.arr [.str "a", .int 1]])])] }
      ⟨200, .ok (.obj [("ok", .bool true)]), ""⟩ =
      ([.httpPost "answerCallbackQuery"
          [("callback_query_id", .int 9), ("text", .str "choice"),
           ("a", .int 1)],
        .ack "m1" "m1",
        .status "ok" "telegram_outbound" "good_outbound_request"
          "Outbound request successful" [],
        .status "ok" "telegram_callback_query_reply"
          "good_callback_query_reply" "Outbound request successful" []],
       none) := rfl

/-- C10 (amended): `handle_outbound_callback_query` raises before the
HTTP request, with no nack or status published, when the reply
metadata is malformed in either of these ways: a missing
`helper_metadata.telegram` raises `KeyError`, and a present `telegram`
without `details` makes `params.update(None)` raise `TypeError`.
Completion does not require `details` to be a dict: `dict.update` also
accepts a sequence of key/value pairs, which completes and issues the
POST with the pairs merged into the params. -/
theorem C10_outbound_callback_query_metadata_errors :
    ∀ (message : OutMsg) (response : HttpResponse) (d qid : JVal),
      dgetItem message.transport_metadata "details" = .ok d →
      d.getItem "callback_query_id" = .ok qid →
      ((message.helper_metadata.lookup "telegram" = none →
        handle_outbound_callback_query message.message_id message response
          = ([], some (.keyError "telegram")))
      ∧ (∀ tfs : List (String × JVal),
          dgetItem message.helper_metadata "telegram" = .ok (.obj tfs) →
          (JVal.obj tfs).hasKey "details" = false →
          handle_outbound_callback_query message.message_id message
            response = ([], some .typeError))
      ∧ (∀ (tg : JVal) (elems : List JVal)
          (body : List (String × JVal)),
          dgetItem message.helper_metadata "telegram" = .ok tg →
          tg.getOpt "details" = .arr elems →
          dictUpdate [("callback_query_id", qid),
            ("text", message.content)] (.arr elems) = .ok body →
          postsOf (handle_outbound_callback_query message.message_id
            message response).1 = [("answerCallbackQuery", body)]
          ∧ (handle_outbound_callback_query message.message_id message
              response).2 =
            (match validate_outbound response with
             | .error e => some e
             | .ok _ => none))) := by
  intro message response d qid hd hqid
  refine ⟨?_, ?_, ?_⟩
  · intro hnone
    have h : dgetItem message.helper_metadata "telegram" =
        .error (.keyError "telegram") := by simp [dgetItem, hnone]
    simp [handle_outbound_callback_query, hd, hqid, h, bind, Except.bind]
  · intro tfs htg hdet
    have hnull := JVal.getOpt_eq_null_of_not_hasKey hdet
    simp [handle_outbound_callback_query, hd, hqid, htg, hnull,
      dictUpdate, bind, Except.bind, pure, Except.pure]
  · intro tg elems body htg hdet hupd
    cases hval : validate_outbound response with
    | error e =>
        constructor <;>
          simp [handle_outbound_callback_query, hd, hqid, htg, hdet,
            hupd, hval, bind, Except.bind, pure, Except.pure, postsOf]
    | ok v =>
        cases v <;>
          (constructor <;>
            simp [handle_outbound_callback_query, hd, hqid, htg, hdet,
              hupd, hval, bind, Except.bind, pure, Except.pure,
              postsOf, outbound_success, outbound_failure])

/-- Witness for the amended C10: a callback-query reply with no
`helper_metadata.telegram` raises `KeyError`; one whose `telegram`
lacks `details` raises `TypeError`; one whose `details` is a pair
sequence issues the POST with the pair merged in. -/
theorem C10_outbound_callback_query_metadata_errors_witness :
    handle_outbound_callback_query "m1"
      { message_id := "m1", content := .str "hello", to_addr := .int 42,
        in_reply_to := none,
        transport_metadata := [("type", .str "callback_query"),
          ("details", .obj [("callback_query_id", .int 9)])],
        helper_metadata := [] }
      ⟨200, .ok (.obj [("ok", .bool true)]), ""⟩ =
      ([], some (.keyError "telegram"))
    ∧ handle_outbound_callback_query "m2"
      { message_id := "m2", content := .str "hello", to_addr := .int 42,
        in_reply_to := none,
        transport_metadata := [("type", .str "callback_query"),
          ("details", .obj [("callback_query_id", .int 9)])],
        helper_metadata := [("telegram", .obj [("hint", .str "x")])] }
      ⟨200, .ok (.obj [("ok", .bool true)]), ""⟩ =
      ([], some .typeError)
    ∧ postsOf (handle_outbound_callback_query "m3"
      { message_id := "m3", content := .str "choice", to_addr := .int 42,
        in_reply_to := none,
        transport_metadata := [("type", .str "callback_query"),
          ("details", .obj [("callback_query_id", .int 9)])],
        helper_metadata := [("telegram", .obj [("details",
          .arr [.arr [.str "a", .int 1]])])] }
      ⟨200, .ok (.obj [("ok", .bool true)]), ""⟩).1 =
      [("answerCallbackQuery",
        [("callback_query_id", .int 9), ("text", .str "choice"),
         ("a", .int 1)])] := by
  refine ⟨?_, ?_, ?_⟩
  · exact (C10_outbound_callback_query_metadata_errors
      { message_id := "m1", content := .str "hello", to_addr := .int 42,
        in_reply_to := none,
        transport_metadata := [("type", .str "callback_query"),
          ("details", .obj [("callback_query_id", .int 9)])],
        helper_metadata := [] }
      ⟨200, .ok (.obj [("ok", .bool true)]), ""⟩
      (.obj [("callback_query_id", .int 9)]) (.int 9) rfl rfl).1 rfl
  · exact (C10_outbound_callback_query_metadata_errors
      { message_id := "m2", content := .str "hello", to_addr := .int 42,
        in_reply_to := none,
        transport_metadata := [("type", .str "callback_query"),
          ("details", .obj [("callback_query_id", .int 9)])],
        helper_metadata := [("telegram", .obj [("hint", .str "x")])] }
      ⟨200, .ok (.obj [("ok", .bool true)]), ""⟩
      (.obj [("callback_query_id", .int 9)]) (.int 9) rfl rfl).2.1
      [("hint", .str "x")] rfl rfl
  · exact ((C10_outbound_callback_query_metadata_errors
      { message_id := "m3", content := .str "choice", to_addr := .int 42,
        in_reply_to := none,
        transport_metadata := [("type", .str "callback_query"),
          ("details", .obj [("callback_query_id", .int 9)])],
        helper_metadata := [("telegram", .obj [("details",
          .arr [.arr [.str "a", .int 1]])])] }
      ⟨200, .ok (.obj [("ok", .bool true)]), ""⟩
      (.obj [("callback_query_id", .int 9)]) (.int 9) rfl rfl).2.2
      (.obj [("details", .arr [.arr [.str "a", .int 1]])])
      [.arr [.str "a", .int 1]]
      [("callback_query_id", .int 9), ("text", .str "choice"),
       ("a", .int 1)] rfl rfl rfl).1

/-! ### C8: inline-query reply without `results` fails locally -/

/-- C8: an outbound inline-query reply whose `helper_metadata` lacks
`telegram` (as a `KeyError`) or whose `telegram` dict lacks `results`
issues no HTTP call and yields exactly one nack whose reason contains
`results` plus one `down` status of type `bad_inline_query_reply` —
the same one-nack-one-status shape as a remote failure, with no
exception escaping. -/
theorem C8_inline_query_missing_results :
    ∀ (message : OutMsg) (response : HttpResponse) (d qid : JVal),
      dget message.transport_metadata "type" = .str "inline_query" →
      dgetItem message.transport_metadata "details" = .ok d →
      d.getItem "inline_query_id" = .ok qid →
      ((∃ k, dgetItem message.helper_metadata "telegram" =
          .error (.keyError k)) ∨
       (∃ (tg : JVal) (k : String),
          dgetItem message.helper_metadata "telegram" = .ok tg ∧
          tg.getItem "results" = .error (.keyError k))) →
      postsOf (handle_outbound_message message response).1 = []
      ∧ nacksOf (handle_outbound_message message response).1 =
          [(message.message_id,
            "Inline query reply not sent: results field missing")]
      ∧ downStatusesOf (handle_outbound_message message response).1 =
          [.status "down" "telegram_inline_query_reply"
            "bad_inline_query_reply"
            "Inline query reply not sent: results field missing"
            [("error", .str ("Transport received an outbound inline " ++
              "query reply that did not contain any results. Check " ++
              "that your application is configured to reply to " ++
              "inline queries. If you\x27re not supporting inline " ++
              "queries, you should disable your bot\x27s inline " ++
              "mode."))]]
      ∧ (handle_outbound_message message response).2 = none := by
  intro message response d qid htype hd hqid hmiss
  have htype1 : (dget message.transport_metadata "type").isStrEq
      "inline_query" = true := by simp [JVal.isStrEq, htype]
  rcases hmiss with ⟨k, hk⟩ | ⟨tg, k, htg, hres⟩
  · refine ⟨?_, ?_, ?_, ?_⟩ <;>
      simp [handle_outbound_message, htype1,
        handle_outbound_inline_query, hd, hqid, hk, bind, Except.bind,
        pure, Except.pure, postsOf, nacksOf, downStatusesOf]
  · refine ⟨?_, ?_, ?_, ?_⟩ <;>
      simp [handle_outbound_message, htype1,
        handle_outbound_inline_query, hd, hqid, htg, hres, bind,
        Except.bind, pure, Except.pure, postsOf, nacksOf, downStatusesOf]

/-- Witness for C8: an inline-query reply with no
`helper_metadata.telegram` at all, and one whose `telegram` dict has no
`results` key. -/
theorem C8_inline_query_missing_results_witness :
    (postsOf (handle_outbound_message
      { message_id := "m1", content := .null, to_addr := .int 42,
        in_reply_to := none,
        transport_metadata := [("type", .str "inline_query"),
          ("details", .obj [("inline_query_id", .int 7)])],
        helper_metadata := [] }
      ⟨200, .ok (.obj [("ok", .bool true)]), ""⟩).1 = []
    ∧ nacksOf (handle_outbound_message
      { message_id := "m1", content := .null, to_addr := .int 42,
        in_reply_to := none,
        transport_metadata := [("type", .str "inline_query"),
          ("details", .obj [("inline_query_id", .int 7)])],
        helper_metadata := [] }
      ⟨200, .ok (.obj [("ok", .bool true)]), ""⟩).1 =
      [("m1", "Inline query reply not sent: results field missing")])
    ∧ nacksOf (handle_outbound_message
      { message_id := "m2", content := .null, to_addr := .int 42,
        in_reply_to := none,
        transport_metadata := [("type", .str "inline_query"),
          ("details", .obj [("inline_query_id", .int 7)])],
        helper_metadata := [("telegram", .obj [("type",
          .str "inline_query")])] }
      ⟨200, .ok (.obj [("ok", .bool true)]), ""⟩).1 =
      [("m2", "Inline query reply not sent: results field missing")] := by
  refine ⟨⟨?_, ?_⟩, ?_⟩
  · exact (C8_inline_query_missing_results
      { message_id := "m1", content := .null, to_addr := .int 42,
        in_reply_to := none,
        transport_metadata := [("type", .str "inline_query"),
          ("details", .obj [("inline_query_id", .int 7)])],
        helper_metadata := [] }
      ⟨200, .ok (.obj [("ok", .bool true)]), ""⟩
      (.obj [("inline_query_id", .int 7)]) (.int 7) rfl rfl rfl
      (.inl ⟨"telegram", rfl⟩)).1
  · exact (C8_inline_query_missing_results
      { message_id := "m1", content := .null, to_addr := .int 42,
        in_reply_to := none,
        transport_metadata := [("type", .str "inline_query"),
          ("details", .obj [("inline_query_id", .int 7)])],
        helper_metadata := [] }
      ⟨200, .ok (.obj [("ok", .bool true)]), ""⟩
      (.obj [("inline_query_id", .int 7)]) (.int 7) rfl rfl rfl
      (.inl ⟨"telegram", rfl⟩)).2.1
  · exact (C8_inline_query_missing_results
      { message_id := "m2", content := .null, to_addr := .int 42,
        in_reply_to := none,
        transport_metadata := [("type", .str "inline_query"),
          ("details", .obj [("inline_query_id", .int 7)])],
        helper_metadata := [("telegram", .obj [("type",
          .str "inline_query")])] }
      ⟨200, .ok (.obj [("ok", .bool true)]), ""⟩
      (.obj [("inline_query_id", .int 7)]) (.int 7) rfl rfl rfl
      (.inr ⟨.obj [("type", .str "inline_query")], "results", rfl,
        rfl⟩)).2.1

/-! ### C7: the rendered `sendMessage` body -/

/-- C7: for a plain-text outbound message the rendered `sendMessage`
body has `chat_id = to_addr` and `text = content`; it carries
`reply_to_message_id = transport_metadata.telegram_msg_id` exactly when
`in_reply_to` is set; and the `helper_metadata.telegram` formatting
overrides (fields distinct from the reserved three) are merged into the
body, their absence raising no error. -/
theorem C7_plain_outbound_body :
    ∀ (message : OutMsg) (response : HttpResponse),
      (dget message.transport_metadata "type").isStrEq "inline_query"
        = false →
      (dget message.transport_metadata "type").isStrEq "callback_query"
        = false →
      ((message.helper_metadata.lookup "telegram" = none →
        (message.in_reply_to = none →
          postsOf (handle_outbound_message message response).1 =
            [("sendMessage",
              [("chat_id", message.to_addr),
               ("text", message.content)])])
        ∧ (∀ x t : JVal, message.in_reply_to = some x →
            dgetItem message.transport_metadata "telegram_msg_id"
              = .ok t →
          postsOf (handle_outbound_message message response).1 =
            [("sendMessage",
              [("chat_id", message.to_addr),
               ("text", message.content),
               ("reply_to_message_id", t)])])
        ∧ (∀ v : VOut, validate_outbound response = .ok v →
            message.in_reply_to = none →
            (handle_outbound_message message response).2 = none))
      ∧ (∀ hfs : List (String × JVal),
          dgetItem message.helper_metadata "telegram" = .ok (.obj hfs) →
          (hfs.map Prod.fst).Nodup →
          "chat_id" ∉ hfs.map Prod.fst →
          "text" ∉ hfs.map Prod.fst →
          "reply_to_message_id" ∉ hfs.map Prod.fst →
          (message.in_reply_to = none →
            ∃ body,
              postsOf (handle_outbound_message message response).1 =
                [("sendMessage", body)]
              ∧ body.lookup "chat_id" = some message.to_addr
              ∧ body.lookup "text" = some message.content
              ∧ body.lookup "reply_to_message_id" = none
              ∧ ∀ kv ∈ hfs, body.lookup kv.1 = some kv.2)
          ∧ (∀ x t : JVal, message.in_reply_to = some x →
              dgetItem message.transport_metadata "telegram_msg_id"
                = .ok t →
            ∃ body,
              postsOf (handle_outbound_message message response).1 =
                [("sendMessage", body)]
              ∧ body.lookup "chat_id" = some message.to_addr
              ∧ body.lookup "text" = some message.content
              ∧ body.lookup "reply_to_message_id" = some t
              ∧ ∀ kv ∈ hfs, body.lookup kv.1 = some kv.2))) := by
  intro message response htype1 htype2
  constructor
  · intro hnone
    have hk : dgetItem message.helper_metadata "telegram" =
        .error (.keyError "telegram") := by simp [dgetItem, hnone]
    refine ⟨?_, ?_, ?_⟩
    · intro hrep
      cases hval : validate_outbound response with
      | error e =>
          simp [handle_outbound_message, htype1, htype2, hrep, hk, hval,
            bind, Except.bind, pure, Except.pure, postsOf]
      | ok v =>
          cases v <;>
            simp [handle_outbound_message, htype1, htype2, hrep, hk,
              hval, bind, Except.bind, pure, Except.pure, postsOf,
              outbound_success, outbound_failure]
    · intro x t hrep htmid
      cases hval : validate_outbound response with
      | error e =>
          simp [handle_outbound_message, htype1, htype2, hrep, htmid,
            hk, hval, bind, Except.bind, pure, Except.pure, postsOf,
            setKey, lookup_cons_eq_if]
      | ok v =>
          cases v <;>
            simp [handle_outbound_message, htype1, htype2, hrep, htmid,
              hk, hval, bind, Except.bind, pure, Except.pure, postsOf,
              setKey, lookup_cons_eq_if, outbound_success,
              outbound_failure]
    · intro v hval hrep
      cases v <;>
        simp [handle_outbound_message, htype1, htype2, hrep, hk, hval,
          bind, Except.bind, pure, Except.pure, outbound_success,
          outbound_failure]
  · intro hfs htg hnd hchat htext hreply
    constructor
    · intro hrep
      refine ⟨hfs.foldl (fun acc kv => setKey acc kv.1 kv.2)
        [("chat_id", message.to_addr), ("text", message.content)],
        ?_, ?_, ?_, ?_, ?_⟩
      · cases hval : validate_outbound response with
        | error e =>
            simp [handle_outbound_message, htype1, htype2, hrep, htg,
              hval, bind, Except.bind, pure, Except.pure, postsOf,
              dictUpdate]
        | ok v =>
            cases v <;>
              simp [handle_outbound_message, htype1, htype2, hrep, htg,
                hval, bind, Except.bind, pure, Except.pure, postsOf,
                dictUpdate, outbound_success, outbound_failure]
      · rw [lookup_foldl_setKey_not_mem _ _ _ hchat]
        simp [lookup_cons_eq_if]
      · rw [lookup_foldl_setKey_not_mem _ _ _ htext]
        simp [lookup_cons_eq_if]
      · rw [lookup_foldl_setKey_not_mem _ _ _ hreply]
        simp [lookup_cons_eq_if]
      · intro kv hkv
        exact lookup_foldl_setKey_mem hfs _ kv.1 kv.2 hnd hkv
    · intro x t hrep htmid
      refine ⟨hfs.foldl (fun acc kv => setKey acc kv.1 kv.2)
        [("chat_id", message.to_addr), ("text", message.content),
         ("reply_to_message_id", t)],
        ?_, ?_, ?_, ?_, ?_⟩
      · cases hval : validate_outbound response with
        | error e =>
            simp [handle_outbound_message, htype1, htype2, hrep, htmid,
              htg, hval, bind, Except.bind, pure, Except.pure, postsOf,
              dictUpdate, setKey, lookup_cons_eq_if]
        | ok v =>
            cases v <;>
              simp [handle_outbound_message, htype1, htype2, hrep,
                htmid, htg, hval, bind, Except.bind, pure, Except.pure,
                postsOf, dictUpdate, setKey, lookup_cons_eq_if,
                outbound_success, outbound_failure]
      · rw [lookup_foldl_setKey_not_mem _ _ _ hchat]
        simp [lookup_cons_eq_if]
      · rw [lookup_foldl_setKey_not_mem _ _ _ htext]
        simp [lookup_cons_eq_if]
      · rw [lookup_foldl_setKey_not_mem _ _ _ hreply]
        simp [lookup_cons_eq_if]
      · intro kv hkv
        exact lookup_foldl_setKey_mem hfs _ kv.1 kv.2 hnd hkv

/-- Witness for C7: a bare message renders only `chat_id`/`text`; a
reply with a `parse_mode` override renders the reply id and carries the
override. -/
theorem C7_plain_outbound_body_witness :
    (postsOf (handle_outbound_message
      { message_id := "m1", content := .str "hello", to_addr := .int 42,
        in_reply_to := none, transport_metadata := [],
        helper_metadata := [] }
      ⟨200, .ok (.obj [("ok", .bool true)]), ""⟩).1 =
      [("sendMessage", [("chat_id", .int 42), ("text", .str "hello")])])
    ∧ (∃ body,
        postsOf (handle_outbound_message
          { message_id := "m2", content := .str "hello",
            to_addr := .int 42, in_reply_to := some (.str "prev"),
            transport_metadata := [("telegram_msg_id", .int 5)],
            helper_metadata := [("telegram", .obj [
              ("parse_mode", .str "Markdown")])] }
          ⟨200, .ok (.obj [("ok", .bool true)]), ""⟩).1 =
          [("sendMessage", body)]
        ∧ body.lookup "chat_id" = some (.int 42)
        ∧ body.lookup "text" = some (.str "hello")
        ∧ body.lookup "reply_to_message_id" = some (.int 5)
        ∧ ∀ kv ∈ [(("parse_mode" : String), JVal.str "Markdown")],
            body.lookup kv.1 = some kv.2) := by
  constructor
  · exact ((C7_plain_outbound_body
      { message_id := "m1", content := .str "hello", to_addr := .int 42,
        in_reply_to := none, transport_metadata := [],
        helper_metadata := [] }
      ⟨200, .ok (.obj [("ok", .bool true)]), ""⟩ rfl rfl).1 rfl).1 rfl
  · exact ((C7_plain_outbound_body
      { message_id := "m2", content := .str "hello", to_addr := .int 42,
        in_reply_to := some (.str "prev"),
        transport_metadata := [("telegram_msg_id", .int 5)],
        helper_metadata := [("telegram", .obj [
          ("parse_mode", .str "Markdown")])] }
      ⟨200, .ok (.obj [("ok", .bool true)]), ""⟩ rfl rfl).2
      [("parse_mode", .str "Markdown")] rfl (by simp) (by simp)
      (by simp) (by simp)).2 (.str "prev") (.int 5) rfl rfl

/-! ### C4: ack/nack and status shape after an outbound HTTP call -/

/-- C4: once the HTTP call is made, a validator success yields exactly
one ack with `user_message_id = sent_message_id = message_id` plus the
`good_outbound_request` ok status and no nack; any validator failure
yields exactly one nack whose reason is the operation context followed
by ` not sent: ` and the validator message, no ack, and one `down`
status whose type is the validator's failure category and whose details
carry the structured cause — with the callback query id echoed into the
details on the callback-reply path. -/
theorem C4_outbound_ack_nack_shape :
    (∀ (message : OutMsg) (response : HttpResponse),
      (dget message.transport_metadata "type").isStrEq "inline_query"
        = false →
      (dget message.transport_metadata "type").isStrEq "callback_query"
        = false →
      (message.in_reply_to = none ∨
        ∃ t, dgetItem message.transport_metadata "telegram_msg_id"
          = .ok t) →
      (message.helper_metadata.lookup "telegram" = none ∨
        ∃ hfs, dgetItem message.helper_metadata "telegram"
          = .ok (.obj hfs)) →
      ((validate_outbound response = .ok .success →
        acksOf (handle_outbound_message message response).1 =
          [(message.message_id, message.message_id)]
        ∧ nacksOf (handle_outbound_message message response).1 = []
        ∧ Event.status "ok" "telegram_outbound" "good_outbound_request"
            "Outbound request successful" []
            ∈ (handle_outbound_message message response).1)
      ∧ (∀ (vmsg vstatus : String) (vdetails : List (String × JVal)),
          validate_outbound response =
            .ok (.failure vmsg vstatus vdetails) →
        nacksOf (handle_outbound_message message response).1 =
          [(message.message_id, "Message not sent: " ++ vmsg)]
        ∧ acksOf (handle_outbound_message message response).1 = []
        ∧ downStatusesOf (handle_outbound_message message response).1 =
          [.status "down" "telegram_outbound" vstatus
            ("Message not sent: " ++ vmsg) vdetails])))
    ∧ (∀ (message : OutMsg) (response : HttpResponse) (d qid tg : JVal)
        (dfs : List (String × JVal)),
      dget message.transport_metadata "type" = .str "callback_query" →
      dgetItem message.transport_metadata "details" = .ok d →
      d.getItem "callback_query_id" = .ok qid →
      dgetItem message.helper_metadata "telegram" = .ok tg →
      tg.getOpt "details" = .obj dfs →
      ((validate_outbound response = .ok .success →
        acksOf (handle_outbound_message message response).1 =
          [(message.message_id, message.message_id)]
        ∧ nacksOf (handle_outbound_message message response).1 = []
        ∧ Event.status "ok" "telegram_outbound" "good_outbound_request"
            "Outbound request successful" []
            ∈ (handle_outbound_message message response).1)
      ∧ (∀ (vmsg vstatus : String) (vdetails : List (String × JVal)),
          validate_outbound response =
            .ok (.failure vmsg vstatus vdetails) →
        nacksOf (handle_outbound_message message response).1 =
          [(message.message_id,
            "Callback query reply not sent: " ++ vmsg)]
        ∧ acksOf (handle_outbound_message message response).1 = []
        ∧ downStatusesOf (handle_outbound_message message response).1 =
          [.status "down" "telegram_outbound" vstatus
            ("Callback query reply not sent: " ++ vmsg)
            (setKey vdetails "callback_query_id" qid)]))) := by
  constructor
  · intro message response htype1 htype2 hrep hhm
    rcases hrep with hrepN | ⟨t, htmid⟩ <;>
      rcases hhm with hhmN | ⟨hfs, htg⟩
    · have hk : dgetItem message.helper_metadata "telegram" =
          .error (.keyError "telegram") := by simp [dgetItem, hhmN]
      constructor
      · intro hval
        refine ⟨?_, ?_, ?_⟩ <;>
          simp [handle_outbound_message, htype1, htype2, hrepN, hk,
            hval, bind, Except.bind, pure, Except.pure, acksOf, nacksOf,
            outbound_success, outbound_failure]
      · intro vmsg vstatus vdetails hval
        refine ⟨?_, ?_, ?_⟩ <;>
          simp [handle_outbound_message, htype1, htype2, hrepN, hk,
            hval, bind, Except.bind, pure, Except.pure, acksOf, nacksOf,
            downStatusesOf, outbound_success, outbound_failure]
    · constructor
      · intro hval
        refine ⟨?_, ?_, ?_⟩ <;>
          simp [handle_outbound_message, htype1, htype2, hrepN, htg,
            hval, bind, Except.bind, pure, Except.pure, acksOf, nacksOf,
            dictUpdate, outbound_success, outbound_failure]
      · intro vmsg vstatus vdetails hval
        refine ⟨?_, ?_, ?_⟩ <;>
          simp [handle_outbound_message, htype1, htype2, hrepN, htg,
            hval, bind, Except.bind, pure, Except.pure, acksOf, nacksOf,
            downStatusesOf, dictUpdate, outbound_success,
            outbound_failure]
    · have hk : dgetItem message.helper_metadata "telegram" =
          .error (.keyError "telegram") := by simp [dgetItem, hhmN]
      constructor
      · intro hval
        cases hir : message.in_reply_to <;>
          (refine ⟨?_, ?_, ?_⟩ <;>
            simp [handle_outbound_message, htype1, htype2, hir, htmid,
              hk, hval, bind, Except.bind, pure, Except.pure, acksOf,
              nacksOf, outbound_success, outbound_failure])
      · intro vmsg vstatus vdetails hval
        cases hir : message.in_reply_to <;>
          (refine ⟨?_, ?_, ?_⟩ <;>
            simp [handle_outbound_message, htype1, htype2, hir, htmid,
              hk, hval, bind, Except.bind, pure, Except.pure, acksOf,
              nacksOf, downStatusesOf, outbound_success,
              outbound_failure])
    · constructor
      · intro hval
        cases hir : message.in_reply_to <;>
          (refine ⟨?_, ?_, ?_⟩ <;>
            simp [handle_outbound_message, htype1, htype2, hir, htmid,
              htg, hval, bind, Except.bind, pure, Except.pure, acksOf,
              nacksOf, dictUpdate, outbound_success, outbound_failure])
      · intro vmsg vstatus vdetails hval
        cases hir : message.in_reply_to <;>
          (refine ⟨?_, ?_, ?_⟩ <;>
            simp [handle_outbound_message, htype1, htype2, hir, htmid,
              htg, hval, bind, Except.bind, pure, Except.pure, acksOf,
              nacksOf, downStatusesOf, dictUpdate, outbound_success,
              outbound_failure])
  · intro message response d qid tg dfs htype hd hqid htg hv
    have h1 : (dget message.transport_metadata "type").isStrEq
        "inline_query" = false := by simp [JVal.isStrEq, htype]
    have h2 : (dget message.transport_metadata "type").isStrEq
        "callback_query" = true := by simp [JVal.isStrEq, htype]
    constructor
    · intro hval
      refine ⟨?_, ?_, ?_⟩ <;>
        simp [handle_outbound_message, h1, h2,
          handle_outbound_callback_query, hd, hqid, htg, hv, hval,
          dictUpdate, bind, Except.bind, pure, Except.pure, acksOf,
          nacksOf, outbound_success, outbound_failure]
    · intro vmsg vstatus vdetails hval
      refine ⟨?_, ?_, ?_⟩ <;>
        simp [handle_outbound_message, h1, h2,
          handle_outbound_callback_query, hd, hqid, htg, hv, hval,
          dictUpdate, bind, Except.bind, pure, Except.pure, acksOf,
          nacksOf, downStatusesOf, outbound_success, outbound_failure]

/-- Witness for C4: a `sendMessage` receiving `200 {ok: true}` acks
with both ids equal to the message id; the same message receiving
`400 {ok: false, description: Bad request}` nacks with the composed
reason and a `bad_response` down status; a callback reply failure
echoes the query id into the status details. -/
theorem C4_outbound_ack_nack_shape_witness :
    (acksOf (handle_outbound_message
      { message_id := "m1", content := .str "hello", to_addr := .int 42,
        in_reply_to := none, transport_metadata := [],
        helper_metadata := [] }
      ⟨200, .ok (.obj [("ok", .bool true)]), ""⟩).1 = [("m1", "m1")])
    ∧ (nacksOf (handle_outbound_message
      { message_id := "m1", content := .str "hello", to_addr := .int 42,
        in_reply_to := none, transport_metadata := [],
        helper_metadata := [] }
      ⟨400, .ok (.obj [("ok", .bool false),
        ("description", .str "Bad request")]), ""⟩).1 =
      [("m1", "Message not sent: bad response from Telegram")])
    ∧ downStatusesOf (handle_outbound_message
      { message_id := "m3", content := .str "choice",
        to_addr := .int 42, in_reply_to := none,
        transport_metadata := [("type", .str "callback_query"),
          ("details", .obj [("callback_query_id", .int 9)])],
        helper_metadata := [("telegram", .obj [("details", .obj [])])] }
      ⟨400, .ok (.obj [("ok", .bool false),
        ("description", .str "Bad request")]), ""⟩).1 =
      [.status "down" "telegram_outbound" "bad_response"
        "Callback query reply not sent: bad response from Telegram"
        (setKey [("error", .str "Bad request"), ("res_code", .int 400)]
          "callback_query_id" (.int 9))] := by
  refine ⟨?_, ?_, ?_⟩
  · exact ((C4_outbound_ack_nack_shape.1
      { message_id := "m1", content := .str "hello", to_addr := .int 42,
        in_reply_to := none, transport_metadata := [],
        helper_metadata := [] }
      ⟨200, .ok (.obj [("ok", .bool true)]), ""⟩ rfl rfl (.inl rfl)
      (.inl rfl)).1 rfl).1
  · exact ((C4_outbound_ack_nack_shape.1
      { message_id := "m1", content := .str "hello", to_addr := .int 42,
        in_reply_to := none, transport_metadata := [],
        helper_metadata := [] }
      ⟨400, .ok (.obj [("ok", .bool false),
        ("description", .str "Bad request")]), ""⟩ rfl rfl (.inl rfl)
      (.inl rfl)).2 "bad response from Telegram" "bad_response"
      [("error", .str "Bad request"), ("res_code", .int 400)] rfl).1
  · exact ((C4_outbound_ack_nack_shape.2
      { message_id := "m3", content := .str "choice",
        to_addr := .int 42, in_reply_to := none,
        transport_metadata := [("type", .str "callback_query"),
          ("details", .obj [("callback_query_id", .int 9)])],
        helper_metadata := [("telegram", .obj [("details", .obj [])])] }
      ⟨400, .ok (.obj [("ok", .bool false),
        ("description", .str "Bad request")]), ""⟩
      (.obj [("callback_query_id", .int 9)]) (.int 9)
      (.obj [("details", .obj [])]) [] rfl rfl rfl rfl rfl).2
      "bad response from Telegram" "bad_response"
      [("error", .str "Bad request"), ("res_code", .int 400)] rfl).2.2

end VxTelegram
